import Mathlib

/-!
Verification development for the campaign workflow engine of the
clento-backend repository.

The TypeScript sources are shallowly embedded as executable Lean
definitions.  Modelling conventions, used consistently below:

* JavaScript timestamps (`Date`, `Date.now()`, ISO-8601 strings that only
  travel through `new Date(...).getTime()`) are modelled as `Int` epoch
  milliseconds.  The local timezone of the process is modelled as UTC, so
  `setHours(0,0,0,0)` floors to a multiple of 86400000 ms.
* `null` / `undefined` fields are `Option _`; `a ?? b` is `Option.getD`,
  and the truthiness coercions actually exercised by the sources are
  modelled pointwise where they occur (`jsOrBool`, empty-string checks).
* `Math.floor(x / 1000)` on integers is `Int.fdiv x 1000`.
* Database writes and provider-SDK calls performed by a routine are
  reified as an explicit effect list; the routine itself stays a pure
  function of its inputs plus a provider oracle giving each SDK call's
  outcome.
-/

/-- `Math.floor(a / b)` for integer inputs. -/
def jsFloorDiv (a b : Int) : Int := Int.fdiv a b

/-- `Math.ceil(a / b)` for integer inputs. -/
def jsCeilDiv (a b : Int) : Int := -(Int.fdiv (-a) b)

/-- JavaScript `x || dflt` on an optional boolean: the default is taken
whenever `x` is `undefined` or `false` (both falsy). -/
def jsOrBool (x : Option Bool) (dflt : Bool) : Bool :=
  match x with
  | some b => if b then b else dflt
  | none => dflt

/-- JavaScript `x || dflt` on an optional integer: `undefined` and `0` are
falsy. -/
def jsOrInt (x : Option Int) (dflt : Int) : Int :=
  match x with
  | some v => if v = 0 then dflt else v
  | none => dflt

/-- JavaScript truthiness of an optional boolean (`undefined` is falsy). -/
def jsTruthyB (x : Option Bool) : Bool := x.getD false

/-- JavaScript truthiness of an optional string (`undefined` and `""` are
falsy): returns the string when truthy. -/
def jsNonEmpty (x : Option String) : Option String :=
  match x with
  | some s => if s = "" then none else some s
  | none => none

/-- UTF-16 code-unit lexicographic `<` on character lists, as used by the
JavaScript `<`/`>` operators on strings (all strings compared by the
sources are ASCII). -/
def jsCharsLt : List Char → List Char → Bool
  | _, [] => false
  | [], _ :: _ => true
  | a :: as, b :: bs =>
    if a.val < b.val then true
    else if b.val < a.val then false
    else jsCharsLt as bs

/-- JavaScript `a > b` on strings. -/
def jsStringGt (a b : String) : Bool := jsCharsLt b.data a.data

/-- `parseInt(s, 10)`: optional leading whitespace and sign, then a
maximal digit run; `none` models `NaN`. -/
def jsParseInt (s : String) : Option Int :=
  let rec skipWs : List Char → List Char
    | c :: cs => if c = ' ' ∨ c = '\t' ∨ c = '\n' ∨ c = '\r' then skipWs cs else c :: cs
    | [] => []
  let rec digits : List Char → Nat → Option Nat
    | c :: cs, acc =>
      if c.isDigit then
        match digits cs (acc * 10 + (c.toNat - '0'.toNat)) with
        | some v => some v
        | none => some (acc * 10 + (c.toNat - '0'.toNat))
      else if acc = 0 then none else some acc
    | [], acc => if acc = 0 then none else some acc
  let rec leading : List Char → Option Nat
    | c :: cs =>
      if c.isDigit then some ((c.toNat - '0'.toNat)) |>.bind fun d =>
        match digits cs d with
        | some v => some v
        | none => some d
      else none
    | [] => none
  match skipWs s.data with
  | '-' :: cs => (leading cs).map fun n => -(n : Int)
  | '+' :: cs => (leading cs).map fun n => (n : Int)
  | cs => (leading cs).map fun n => (n : Int)

/-! ## Calendar arithmetic (model of the JavaScript `Date` operations used
by `connectionRequestLimits.ts`, with local time = UTC). -/

/-- Civil date from days since the Unix epoch (proleptic Gregorian). -/
def civilFromDays (z0 : Int) : Int × Int × Int :=
  let z := z0 + 719468
  let era := Int.fdiv z 146097
  let doe := z - era * 146097
  let yoe := Int.fdiv (doe - Int.fdiv doe 1460 + Int.fdiv doe 36524 - Int.fdiv doe 146096) 365
  let y := yoe + era * 400
  let doy := doe - (365 * yoe + Int.fdiv yoe 4 - Int.fdiv yoe 100)
  let mp := Int.fdiv (5 * doy + 2) 153
  let d := doy - Int.fdiv (153 * mp + 2) 5 + 1
  let m := if mp < 10 then mp + 3 else mp - 9
  (if m ≤ 2 then y + 1 else y, m, d)

/-- Days since the Unix epoch from a civil date (month `1..12`). -/
def daysFromCivil (y0 m d : Int) : Int :=
  let y := if m ≤ 2 then y0 - 1 else y0
  let era := Int.fdiv y 400
  let yoe := y - era * 400
  let mp := if m > 2 then m - 3 else m + 9
  let doy := Int.fdiv (153 * mp + 2) 5 + d - 1
  let doe := yoe * 365 + Int.fdiv yoe 4 - Int.fdiv yoe 100 + doy
  era * 146097 + doe - 719468

/-- `Date.prototype.getDay` (0 = Sunday) of an epoch-day number;
1970-01-01 was a Thursday. -/
def jsGetDay (days : Int) : Int := Int.emod (Int.emod (days + 4) 7 + 7) 7

/-- Epoch-day number of an epoch-millisecond timestamp. -/
def epochDayOf (ms : Int) : Int := Int.fdiv ms 86400000

def jsMonthName (m : Int) : String :=
  if m = 1 then "Jan" else if m = 2 then "Feb" else if m = 3 then "Mar"
  else if m = 4 then "Apr" else if m = 5 then "May" else if m = 6 then "Jun"
  else if m = 7 then "Jul" else if m = 8 then "Aug" else if m = 9 then "Sep"
  else if m = 10 then "Oct" else if m = 11 then "Nov" else "Dec"

def jsDayName (w : Int) : String :=
  if w = 0 then "Sun" else if w = 1 then "Mon" else if w = 2 then "Tue"
  else if w = 3 then "Wed" else if w = 4 then "Thu" else if w = 5 then "Fri"
  else "Sat"

def pad2 (n : Int) : String := if n < 10 then "0" ++ toString n else toString n

/-- `Date.prototype.toDateString`, e.g. `"Mon Oct 12 2026"`. -/
def toDateString (ms : Int) : String :=
  let z := epochDayOf ms
  let c := civilFromDays z
  jsDayName (jsGetDay z) ++ " " ++ jsMonthName c.2.1 ++ " " ++ pad2 c.2.2 ++ " " ++ toString c.1

/-! ## `src/services/connectionRequestLimits.ts` -/

/-- `isNewDay(lastReset, now)`: the source compares the two
`toDateString()` renderings with the JavaScript string `>`. -/
def isNewDay (lastMs nowMs : Int) : Bool :=
  jsStringGt (toDateString nowMs) (toDateString lastMs)

/-- `getWeekNumber(date)`: ISO-8601 week number computed from the Thursday
of the week containing the date. -/
def getWeekNumber (ms : Int) : Int :=
  let z := epochDayOf ms
  let dayNum := if jsGetDay z = 0 then 7 else jsGetDay z
  let thu := z + 4 - dayNum
  let thuYear := (civilFromDays thu).1
  let yearStart := daysFromCivil thuYear 1 1
  jsCeilDiv (thu - yearStart + 1) 7

/-- `isNewWeek(lastReset, now)`. -/
def isNewWeek (lastMs nowMs : Int) : Bool :=
  let lastYear := (civilFromDays (epochDayOf lastMs)).1
  let nowYear := (civilFromDays (epochDayOf nowMs)).1
  decide (nowYear > lastYear) ||
    (decide (nowYear = lastYear) && decide (getWeekNumber nowMs > getWeekNumber lastMs))

/-- `getNextDayReset(now)`: next local midnight (local = UTC in this
model, so `setDate(+1); setHours(0,0,0,0)` is the start of the next
epoch day). -/
def getNextDayReset (nowMs : Int) : Int := (epochDayOf nowMs + 1) * 86400000

/-- `getNextWeekReset(now)`: next Monday, local midnight. -/
def getNextWeekReset (nowMs : Int) : Int :=
  let day := jsGetDay (epochDayOf nowMs)
  let daysUntilMonday := if day = 0 then (1 : Int) else 8 - day
  (epochDayOf nowMs + daysUntilMonday) * 86400000

/-- `CampaignRequestCounts` (nullable counters and reset timestamps of a
campaign row; timestamps in epoch ms). -/
structure CampaignRequestCounts where
  requests_sent_this_day : Option Int := none
  requests_sent_this_week : Option Int := none
  last_daily_requests_reset : Option Int := none
  last_weekly_requests_reset : Option Int := none
deriving DecidableEq, Repr

structure ConnectionRequestLimitsResult where
  canProceed : Bool
  waitUntilMs : Option Int := none
  requestsSentThisDay : Int
  requestsSentThisWeek : Int
deriving DecidableEq, Repr

/-- The `updateData` patch accumulated by `checkConnectionRequestLimits`
(the imperative field assignments are modelled functionally; an absent
key is `none`). -/
structure ConnectionRequestLimitsUpdate where
  requests_sent_this_day : Option Int := none
  last_daily_requests_reset : Option Int := none
  requests_sent_this_week : Option Int := none
  last_weekly_requests_reset : Option Int := none
deriving DecidableEq, Repr

structure ConnectionRequestLimitsOutput where
  result : ConnectionRequestLimitsResult
  updateData : ConnectionRequestLimitsUpdate
deriving DecidableEq, Repr

/-- Whether the source would enter the daily-reset branch
(`!lastDailyReset || isNewDay(lastDailyReset, now)`). -/
def dailyResetDue (c : CampaignRequestCounts) (nowMs : Int) : Bool :=
  match c.last_daily_requests_reset with
  | none => true
  | some t => isNewDay t nowMs

/-- Whether the source would enter the weekly-reset branch. -/
def weeklyResetDue (c : CampaignRequestCounts) (nowMs : Int) : Bool :=
  match c.last_weekly_requests_reset with
  | none => true
  | some t => isNewWeek t nowMs

/-- `checkConnectionRequestLimits(campaign)`.  `nowMs` models
`new Date()` / `Date.now()`; `dailyLimit`/`weeklyLimit` model
`env.REQUESTS_PER_DAY` / `env.REQUESTS_PER_WEEK` (defaults 60 and 200).
The function body has no `throw`; totality of this definition reflects
that. -/
def checkConnectionRequestLimits (campaign : Option CampaignRequestCounts)
    (nowMs dailyLimit weeklyLimit : Int) : ConnectionRequestLimitsOutput :=
  match campaign with
  | none =>
    { result := { canProceed := false, waitUntilMs := none,
                  requestsSentThisDay := 0, requestsSentThisWeek := 0 },
      updateData := {} }
  | some c =>
    let dDue := dailyResetDue c nowMs
    let wDue := weeklyResetDue c nowMs
    let requestsSentThisDay := if dDue then 0 else c.requests_sent_this_day.getD 0
    let requestsSentThisWeek := if wDue then 0 else c.requests_sent_this_week.getD 0
    let updateData : ConnectionRequestLimitsUpdate :=
      { requests_sent_this_day := if dDue then some 0 else none,
        last_daily_requests_reset := if dDue then some nowMs else none,
        requests_sent_this_week := if wDue then some 0 else none,
        last_weekly_requests_reset := if wDue then some nowMs else none }
    let dailyExceeded := decide (requestsSentThisDay ≥ dailyLimit)
    let weeklyExceeded := decide (requestsSentThisWeek ≥ weeklyLimit)
    if dailyExceeded || weeklyExceeded then
      let waitUntilDaily := getNextDayReset nowMs - nowMs
      let waitUntilWeekly := getNextWeekReset nowMs - nowMs
      let waitUntilMs :=
        if dailyExceeded && weeklyExceeded then max waitUntilDaily waitUntilWeekly
        else if dailyExceeded then waitUntilDaily
        else waitUntilWeekly
      { result := { canProceed := false, waitUntilMs := some waitUntilMs,
                    requestsSentThisDay := requestsSentThisDay,
                    requestsSentThisWeek := requestsSentThisWeek },
        updateData := updateData }
    else
      { result := { canProceed := true, waitUntilMs := none,
                    requestsSentThisDay := requestsSentThisDay,
                    requestsSentThisWeek := requestsSentThisWeek },
        updateData := updateData }

/-! ## Workflow data model (`types/workflow.types.ts`, `dto/workflowSteps.dto.ts`) -/

/-- `EWorkflowType`. -/
inductive EWorkflowType where
  | CAMPAIGN_WORKFLOW
  | LEAD_MONITOR
deriving DecidableEq, Repr

/-- `EWorkflowStepStatus`. -/
inductive EWorkflowStepStatus where
  | PENDING
  | COMPLETE
  | FAILED
deriving DecidableEq, Repr

/-- `EWorkflowNodeType ∪ {check_connection_status, check_message_reply}`:
the step kinds of the engine.  Workflow nodes only carry the first eight;
the two polling kinds are internal. -/
inductive EStepType where
  | profile_visit
  | send_connection_request
  | like_post
  | comment_post
  | send_followup
  | withdraw_request
  | webhook
  | send_inmail
  | check_connection_status
  | check_message_reply
deriving DecidableEq, Repr

/-- `EAction`: node kinds; `addStep` nodes are placeholders. -/
inductive EAction where
  | action
  | addStep
deriving DecidableEq, Repr

/-- The node-config fields read by the engine. -/
structure NodeConfig where
  useAI : Option Bool := none
  configureWithAI : Option Bool := none
  customMessage : Option String := none
  customComment : Option String := none
  recentPostDays : Option Int := none
deriving DecidableEq, Repr

structure DelayData where
  delay : Option String := none
  unit : Option String := none
deriving DecidableEq, Repr

structure EdgeData where
  isConditionalPath : Option Bool := none
  isPositive : Option Bool := none
  delayData : Option DelayData := none
deriving DecidableEq, Repr

structure WorkflowEdge where
  id : String
  source : String
  target : String
  data : Option EdgeData := none
deriving DecidableEq, Repr

structure NodeData where
  type : EStepType
  config : NodeConfig := {}
deriving DecidableEq, Repr

structure WorkflowNode where
  id : String
  type : EAction
  data : NodeData
deriving DecidableEq, Repr

structure WorkflowJson where
  nodes : List WorkflowNode
  edges : List WorkflowEdge
deriving DecidableEq, Repr

/-- `'accepted' | 'not_accepted'`. -/
inductive CondType where
  | accepted
  | not_accepted
deriving DecidableEq, Repr

/-- A `raw_response.nextSteps[]` entry as persisted by `createNextSteps`
(`{nodeId, edgeId, conditionalType, delayMs}`). -/
structure StoredNextStep where
  nodeId : String
  edgeId : String
  conditionalType : Option CondType := none
  delayMs : Int := 0
deriving DecidableEq, Repr

/-- A dynamic `raw_response` / `executionResult` object: one record with
every key that the sources ever read or write on such objects; an absent
key is `none`. -/
structure RawResponse where
  provider_id : Option String := none
  providerId : Option String := none
  nextSteps : Option (List StoredNextStep) := none
  nextStepsInfo : Option (List StoredNextStep) := none
  pollingStartedAt : Option Int := none
  hasReplied : Option Bool := none
  isConnected : Option Bool := none
  shouldContinuePolling : Option Bool := none
  hasTimedOut : Option Bool := none
  error : Option String := none
deriving DecidableEq, Repr

/-- `WorkflowStepResponseDto`: a `workflow_steps` row.  `execute_after`
is Unix seconds; `created_at`/`updated_at`/`last_try_at` are modelled in
epoch ms. -/
structure WorkflowStep where
  id : String
  organization_id : String
  lead_id : String
  id_in_workflow : String
  step_index : Int
  workflow_type : EWorkflowType
  step_type : EStepType
  status : EWorkflowStepStatus
  retries : Int
  execute_after : Int
  raw_response : Option RawResponse := none
  created_at : Int
  updated_at : Int
deriving DecidableEq, Repr

/-- `CreateWorkflowStepDto`. -/
structure CreateWorkflowStep where
  organization_id : String
  lead_id : String
  id_in_workflow : String
  step_index : Int
  workflow_type : EWorkflowType
  step_type : EStepType
  status : EWorkflowStepStatus
  retries : Int
  execute_after : Int
  raw_response : Option RawResponse := none
  created_at : Int
  updated_at : Int
deriving DecidableEq, Repr

/-- `NextWorkflowStep` (planner-internal). -/
structure NextWorkflowStep where
  targetNode : WorkflowNode
  edge : WorkflowEdge
  delayMs : Int
  isConditional : Bool
  conditionalType : Option CondType
deriving DecidableEq, Repr

/-! ## `CampaignManager` graph navigation -/

/-- `calculateDelayFromEdge(edge)`. -/
def calculateDelayFromEdge (edge : WorkflowEdge) : Int :=
  match edge.data.bind (·.delayData) with
  | none => 0
  | some dd =>
    match jsNonEmpty dd.delay, jsNonEmpty dd.unit with
    | some ds, some us =>
      match jsParseInt ds with
      | none => 0
      | some delay =>
        if us = "s" then delay * 1000
        else if us = "m" then delay * 60 * 1000
        else if us = "h" then delay * 60 * 60 * 1000
        else if us = "d" then delay * 24 * 60 * 60 * 1000
        else if us = "w" then delay * 7 * 24 * 60 * 60 * 1000
        else 0
    | _, _ => 0

/-- `getFirstWorkflowNode(workflow)`: entry-node resolution. -/
def getFirstWorkflowNode (workflow : WorkflowJson) : Option WorkflowNode :=
  let nodes := workflow.nodes.filter (fun n => n.type ≠ EAction.addStep)
  if nodes.isEmpty then none
  else
    let validNodeIds := nodes.map (·.id)
    let edges := workflow.edges.filter
      (fun e => validNodeIds.contains e.source ∧ validNodeIds.contains e.target)
    let incoming := fun nid => (edges.filter (fun e => e.target = nid)).length
    let startingNodes := nodes.filter (fun n => incoming n.id = 0)
    match startingNodes with
    | [] => nodes.head?
    | n :: _ => some n

/-- `getNextWorkflowSteps(workflow, currentNode)`: outgoing navigation. -/
def getNextWorkflowSteps (workflow : WorkflowJson) (currentNode : WorkflowNode) :
    List NextWorkflowStep :=
  let outgoingEdges := workflow.edges.filter (fun e => e.source = currentNode.id)
  let nextSteps := outgoingEdges.filterMap fun edge =>
    match workflow.nodes.find? (fun n => n.id = edge.target) with
    | none => none
    | some targetNode =>
      if targetNode.type = EAction.addStep then none
      else
        let delayMs := calculateDelayFromEdge edge
        let isConditional := (edge.data.bind (·.isConditionalPath)) = some true
        let conditionalType : Option CondType :=
          if isConditional then
            some (if (edge.data.bind (·.isPositive)) = some true then CondType.accepted
                  else CondType.not_accepted)
          else none
        some { targetNode := targetNode, edge := edge, delayMs := delayMs,
               isConditional := isConditional, conditionalType := conditionalType }
  nextSteps.filter (fun s => s.targetNode.type ≠ EAction.addStep)

/-- `'connection_status' | 'message_reply'`. -/
inductive PollType where
  | connection_status
  | message_reply
deriving DecidableEq, Repr

/-- The `{nodeId, edgeId, conditionalType, delayMs}` projection stored in
a polling step's `raw_response.nextSteps`. -/
def storedOfNextStep (s : NextWorkflowStep) : StoredNextStep :=
  { nodeId := s.targetNode.id, edgeId := s.edge.id,
    conditionalType := s.conditionalType, delayMs := s.delayMs }

/-- `createNextSteps(currentStep, lead, workflow, currentNode,
executionResult, shouldPoll, pollType)`: the successor planner; returns
the list handed to `bulkCreate`. -/
def createNextSteps (nowMs : Int) (currentStep : WorkflowStep) (leadId : String)
    (workflow : WorkflowJson) (currentNode : WorkflowNode)
    (executionResult : RawResponse) (shouldPoll : Bool) (pollType : Option PollType) :
    List CreateWorkflowStep :=
  if currentStep.step_type = EStepType.check_connection_status ∨
      currentStep.step_type = EStepType.check_message_reply then
    let nextStepsInfo := executionResult.nextStepsInfo.getD []
    let isSuccess :=
      if currentStep.step_type = EStepType.check_connection_status then
        executionResult.isConnected.getD false
      else
        executionResult.hasReplied.getD false
    if executionResult.shouldContinuePolling.getD false then
      [{ organization_id := currentStep.organization_id,
         lead_id := leadId,
         id_in_workflow := currentStep.id_in_workflow,
         step_index := currentStep.step_index + 1,
         workflow_type := EWorkflowType.CAMPAIGN_WORKFLOW,
         step_type := currentStep.step_type,
         status := EWorkflowStepStatus.PENDING,
         retries := currentStep.retries + 1,
         execute_after := jsFloorDiv (nowMs + 60 * 60 * 1000) 1000,
         raw_response := some { providerId := executionResult.providerId,
                                nextSteps := some nextStepsInfo,
                                pollingStartedAt := executionResult.pollingStartedAt },
         created_at := nowMs, updated_at := nowMs }]
    else
      let isMessageReplyStep := currentStep.step_type = EStepType.check_message_reply
      if isMessageReplyStep ∧ isSuccess then
        -- lead replied: stop the workflow for this lead, no next step
        []
      else
        let pathType := if isSuccess then CondType.accepted else CondType.not_accepted
        match nextStepsInfo.find? (fun s => s.conditionalType = some pathType) with
        | none => []
        | some selectedPath =>
          match workflow.nodes.find? (fun n => n.id = selectedPath.nodeId) with
          | none => []
          | some nextNode =>
            [{ organization_id := currentStep.organization_id,
               lead_id := leadId,
               id_in_workflow := selectedPath.nodeId,
               step_index := currentStep.step_index + 1,
               workflow_type := EWorkflowType.CAMPAIGN_WORKFLOW,
               step_type := nextNode.data.type,
               status := EWorkflowStepStatus.PENDING,
               retries := 0,
               execute_after := jsFloorDiv nowMs 1000,
               raw_response := none,
               created_at := nowMs, updated_at := nowMs }]
  else
    let nextSteps := getNextWorkflowSteps workflow currentNode
    if nextSteps.isEmpty then []
    else
      match shouldPoll, pollType with
      | true, some pt =>
        let pollStepType :=
          match pt with
          | PollType.connection_status => EStepType.check_connection_status
          | PollType.message_reply => EStepType.check_message_reply
        [{ organization_id := currentStep.organization_id,
           lead_id := leadId,
           id_in_workflow := currentNode.id,
           step_index := currentStep.step_index + 1,
           workflow_type := EWorkflowType.CAMPAIGN_WORKFLOW,
           step_type := pollStepType,
           status := EWorkflowStepStatus.PENDING,
           retries := 0,
           execute_after := jsFloorDiv (nowMs + 60 * 60 * 1000) 1000,
           raw_response := some { providerId := executionResult.providerId,
                                  pollingStartedAt := executionResult.pollingStartedAt,
                                  nextSteps := some (nextSteps.map storedOfNextStep) },
           created_at := nowMs, updated_at := nowMs }]
      | _, _ =>
        nextSteps.map fun nextStep =>
          { organization_id := currentStep.organization_id,
            lead_id := leadId,
            id_in_workflow := nextStep.targetNode.id,
            step_index := currentStep.step_index + 1,
            workflow_type := EWorkflowType.CAMPAIGN_WORKFLOW,
            step_type := nextStep.targetNode.data.type,
            status := EWorkflowStepStatus.PENDING,
            retries := 0,
            execute_after := jsFloorDiv (nowMs + nextStep.delayMs) 1000,
            raw_response := none,
            created_at := nowMs, updated_at := nowMs }

/-- The entry steps created by `startDailyLeads` for the admitted leads
(`step_index = 0`, `execute_after = floor(Date.now()/1000)`). -/
def entryWorkflowSteps (nowMs : Int) (organizationId : String)
    (leadIds : List String) (firstNode : WorkflowNode) : List CreateWorkflowStep :=
  leadIds.map fun lid =>
    { organization_id := organizationId,
      lead_id := lid,
      id_in_workflow := firstNode.id,
      step_index := 0,
      workflow_type := EWorkflowType.CAMPAIGN_WORKFLOW,
      step_type := firstNode.data.type,
      status := EWorkflowStepStatus.PENDING,
      retries := 0,
      execute_after := jsFloorDiv nowMs 1000,
      raw_response := none,
      created_at := nowMs, updated_at := nowMs }

/-! ## Provider errors (`normalizeErrorMessage`, `EProviderError`) -/

/-- The fields of a provider error body that the engine inspects. -/
structure JsErrorBody where
  type? : Option String := none
  detail : Option String := none
  title : Option String := none
deriving DecidableEq, Repr

/-- A thrown value.  `body` models `error.error?.body ?? error.body`
(already resolved); `message` models `error.message`. -/
structure JsError where
  isErrorInstance : Bool := false
  message : Option String := none
  body : Option JsErrorBody := none
deriving DecidableEq, Repr

/-- `normalizeErrorMessage(error)`. -/
def normalizeErrorMessage (e : JsError) : String :=
  match e.isErrorInstance, jsNonEmpty e.message with
  | true, some m => m
  | _, _ =>
    match e.body with
    | some b =>
      (match b.detail with
       | some d => d
       | none =>
         match b.title with
         | some t => t
         | none => e.message.getD "Unknown error")
    | none => e.message.getD "Unknown error"

/-- The `cannot_resend_yet` detection in the catch handler of
`executeStepAndAddNextStep` (both compared literals in the source equal
`'errors/cannot_resend_yet'`). -/
def isCannotResendYet (e : JsError) : Bool :=
  (e.body.bind (·.type?)) = some "errors/cannot_resend_yet"

/-! ## `UnipileService` (the parts invoked by the step executor) -/

/-- `' '`-family whitespace as matched by the JavaScript `\s` class (the
subset relevant to ASCII messages). -/
def jsIsWs (c : Char) : Bool :=
  c = ' ' ∨ c = '\t' ∨ c = '\n' ∨ c = '\r' ∨ c = '\x0b' ∨ c = '\x0c'

/-- `String.prototype.trim`. -/
def jsTrim (s : String) : String :=
  ⟨((s.data.dropWhile jsIsWs).reverse.dropWhile jsIsWs).reverse⟩

/-- The hardcoded fallback / placeholder-AI message used by
`generateAiText`, `generateConnectionRequestMessage`, `sendFollowUp` and
`sendLinkedInInvitation`. -/
def defaultOutreachMessage : String := "Hey just saw your work great stuff lets connect?"

/-- `generateAiText(params)` (placeholder AI generation). -/
def generateAiText (_config : NodeConfig) (_author : String) : String :=
  defaultOutreachMessage

/-- `generateConnectionRequestMessage(config)` (placeholder AI
generation). -/
def generateConnectionRequestMessage (_config : NodeConfig) : String :=
  defaultOutreachMessage

/-- The message composed by `sendLinkedInInvitation` (AI if
`config.useAI`, else truthy `config.customMessage`, else the default). -/
def sendLinkedInInvitationMessage (config : NodeConfig) : String :=
  if jsTruthyB config.useAI then generateConnectionRequestMessage config
  else
    match jsNonEmpty config.customMessage with
    | some m => m
    | none => defaultOutreachMessage

/-- `templateData` of `sendFollowUp`. -/
structure TemplateData where
  first_name : Option String := none
  last_name : Option String := none
  company : Option String := none
deriving DecidableEq, Repr

/-- Case-insensitive prefix strip: `some rest` iff the input starts with
the pattern up to ASCII case. -/
def ciStripPat : List Char → List Char → Option (List Char)
  | [], rest => some rest
  | _ :: _, [] => none
  | p :: ps, c :: cs => if p.toLower = c.toLower then ciStripPat ps cs else none

/-- Fuel-bounded worker for the global case-insensitive
`message.replace(regex, value)` with a literal pattern; the fuel
`s.length` always suffices because every step consumes at least one
input character. -/
def ciReplaceAllAux (pat val : List Char) : Nat → List Char → List Char
  | 0, s => s
  | _ + 1, [] => []
  | fuel + 1, c :: cs =>
    match ciStripPat pat (c :: cs) with
    | some rest => val ++ ciReplaceAllAux pat val fuel rest
    | none => c :: ciReplaceAllAux pat val fuel cs

/-- `message.replace(new RegExp(pat, 'gi'), val)` for a literal `pat`. -/
def ciReplaceAll (pat val s : String) : String :=
  ⟨ciReplaceAllAux pat.data val.data s.data.length s.data⟩

/-- Fuel-bounded worker for the removal of unreplaced template variables
(`/\x7b\x7b[^}]+\x7d\x7d/g` replaced by the empty string). -/
def dropUnresolvedAux : Nat → List Char → List Char
  | 0, s => s
  | _ + 1, [] => []
  | fuel + 1, c :: cs =>
    if c = '{' then
      match cs with
      | c2 :: cs2 =>
        if c2 = '{' then
          let inner := cs2.takeWhile (fun x => x ≠ '}')
          let rest := cs2.dropWhile (fun x => x ≠ '}')
          if inner.length > 0 then
            match rest with
            | '}' :: '}' :: rest2 => dropUnresolvedAux fuel rest2
            | _ => c :: dropUnresolvedAux fuel cs
          else c :: dropUnresolvedAux fuel cs
        else c :: dropUnresolvedAux fuel cs
      | [] => [c]
    else c :: dropUnresolvedAux fuel cs

/-- Worker for `replace(/\s+/g, ' ')`: every maximal whitespace run
becomes a single space. -/
def collapseWsAux : Bool → List Char → List Char
  | _, [] => []
  | prevWs, c :: cs =>
    if jsIsWs c then
      if prevWs then collapseWsAux true cs else ' ' :: collapseWsAux true cs
    else c :: collapseWsAux false cs

/-- `replaceTemplateVariables(message, templateData)`:
case-insensitive substitution of the three supported variables (only for
non-empty trimmed values, in insertion order), removal of remaining
variables, whitespace collapse, trim. -/
def replaceTemplateVariables (message : String) (td : TemplateData) : String :=
  let entry := fun (key : String) (v : Option String) =>
    match v with
    | some s => if s ≠ "" ∧ jsTrim s ≠ "" then [(key, jsTrim s)] else []
    | none => []
  let replacements :=
    entry "first_name" td.first_name ++ entry "last_name" td.last_name ++
      entry "company" td.company
  let replaced := replacements.foldl
    (fun acc kv => ciReplaceAll ("\x7b\x7b" ++ kv.1 ++ "\x7d\x7d") kv.2 acc) message
  let dropped : String := ⟨dropUnresolvedAux replaced.data.length replaced.data⟩
  jsTrim ⟨collapseWsAux false dropped.data⟩

/-- The message a `sendFollowUp` call would send (AI if
`config.configureWithAI`, else truthy `config.customMessage`, else the
default; then template substitution when `templateData` is provided).
Note: no caller of `sendFollowUp` exists in the sources; the step
executor sends `config.customMessage || ''` directly. -/
def sendFollowUpMessage (config : NodeConfig) (linkedInUrn : String)
    (templateData : Option TemplateData) : String :=
  let message0 : Option String :=
    if jsTruthyB config.configureWithAI then some (generateAiText config linkedInUrn)
    else jsNonEmpty config.customMessage
  let message1 := message0.getD defaultOutreachMessage
  match templateData with
  | some td => replaceTemplateVariables message1 td
  | none => message1

/-- A provider profile (`users.getProfile` response), restricted to the
fields read by the engine. -/
structure ProviderProfile where
  provider : String
  provider_id : String
  first_name : Option String := none
  last_name : Option String := none
  emails : List String := []
  phones : List String := []
  headline : Option String := none
  work_experience : List (String × Option Bool) := []
  location : Option String := none
  public_profile_url : Option String := none
deriving DecidableEq, Repr

/-- `LeadUpdateDto` as built by `visitLinkedInProfile`. -/
structure LeadUpdate where
  full_name : Option String := none
  first_name : Option String := none
  last_name : Option String := none
  email : Option String := none
  phone : Option String := none
  title : Option String := none
  company : Option String := none
  location : Option String := none
  linkedin_url : Option String := none
  linkedin_id : Option String := none
  updated_at : Option Int := none
deriving DecidableEq, Repr

/-- The lead enrichment patch of `visitLinkedInProfile` (work-experience
entries are `(company, current)` pairs). -/
def leadUpdateOfProfile (nowMs : Int) (p : ProviderProfile) : LeadUpdate :=
  { full_name := some (jsTrim (jsTrim (p.first_name.getD "") ++ " " ++ jsTrim (p.last_name.getD ""))),
    first_name := p.first_name,
    last_name := p.last_name,
    email := p.emails.head?,
    phone := p.phones.head?,
    title := p.headline,
    company := some
      (match (p.work_experience.find? (fun w => w.2 = some true)).map (·.1) with
       | some c => if c = "" then "NONE" else c
       | none => "NONE"),
    location := p.location,
    linkedin_url := p.public_profile_url,
    linkedin_id := some p.provider_id,
    updated_at := some nowMs }

/-! ## Effects of the step executor -/

/-- A call into the provider SDK, with the arguments actually passed. -/
inductive ProviderCall where
  | getProfile (accountId identifier : String) (notify : Bool)
  | sendInvitation (accountId providerId message : String)
  | startNewChat (accountId : String) (attendeesIds : List String) (text : String)
  | isConnectedQuery (accountId identifier : String)
  | likePost (accountId linkedInUrn : String) (lastDays : Int) (reactionType : String)
  | commentPost (accountId linkedInUrn : String)
  | withdrawInvitation (accountId providerId : String)
deriving DecidableEq, Repr

/-- `UpdateWorkflowStepDto` (the step patches issued by the engine). -/
structure WorkflowStepUpdate where
  status : Option EWorkflowStepStatus := none
  retries : Option Int := none
  execute_after : Option Int := none
  last_try_at : Option Int := none
  raw_response : Option RawResponse := none
  updated_at : Option Int := none
deriving DecidableEq, Repr

/-- A database / provider side effect of one executor invocation, in
program order. -/
inductive WorkflowEffect where
  | providerCall (call : ProviderCall)
  | leadUpdate (leadId : String) (patch : LeadUpdate)
  | campaignUpdate (campaignId : String) (patch : ConnectionRequestLimitsUpdate)
  | stepUpdate (stepId : String) (patch : WorkflowStepUpdate)
  | senderBlockedUntil (senderAccountId : String) (untilMs : Int)
  | deferPendingConnectionRequests (senderAccountId : String)
  | stepsCreated (steps : List CreateWorkflowStep)
deriving DecidableEq, Repr

/-- The outcome of each provider-SDK call the executor may make
(deterministic oracle; a `.error` models a thrown provider error). -/
structure ProviderOracle where
  visitProfile : Except JsError ProviderProfile := .error {}
  sendInvitation : Except JsError Unit := .ok ()
  isConnected : Except JsError Bool := .ok false
  sendMessage : Except JsError Unit := .ok ()
  likePost : Except JsError Unit := .ok ()
  commentPost : Except JsError Unit := .ok ()
  withdrawInvitation : Except JsError Unit := .ok ()
deriving Repr

/-- `UnipileService.visitLinkedInProfile`: issues `users.getProfile` with
`notify: params.notify || true` and, on a LinkedIn profile, updates the
lead row; rethrows any SDK error. -/
def visitLinkedInProfile (nowMs : Int) (accountId identifier leadId : String)
    (notify : Option Bool) (outcome : Except JsError ProviderProfile) :
    List WorkflowEffect × Except JsError ProviderProfile :=
  let notifyArg := jsOrBool notify true
  let callEff := WorkflowEffect.providerCall (.getProfile accountId identifier notifyArg)
  match outcome with
  | .error e => ([callEff], .error e)
  | .ok p =>
    if p.provider = "LINKEDIN" then
      ([callEff, .leadUpdate leadId (leadUpdateOfProfile nowMs p)], .ok p)
    else ([callEff], .ok p)

/-! ## The step executor (`executeStepAndAddNextStep`) -/

/-- The sender (`ConnectedAccountResponseDto`) fields read by the
executor; `connection_request_blocked_until` in epoch ms. -/
structure Sender where
  id : String
  provider_account_id : String
  connection_request_blocked_until : Option Int := none
deriving DecidableEq, Repr

/-- All inputs of one `executeStepAndAddNextStep` invocation.
`identifier` is the result of
`extractLinkedInPublicIdentifier(lead.linkedin_url)`;
`dailyLimit`/`weeklyLimit` are `env.REQUESTS_PER_DAY`/`WEEK`
(defaults 60/200). -/
structure ExecEnv where
  nowMs : Int
  step : WorkflowStep
  leadId : String
  identifier : Option String
  sender : Sender
  campaignId : String
  campaignCounters : CampaignRequestCounts
  dailyLimit : Int := 60
  weeklyLimit : Int := 200
  workflow : WorkflowJson
  oracle : ProviderOracle

/-- Result of one `switch` branch: an early `return` (step deferred), a
normal completion (`executionResult`, `shouldPoll`, `pollType`), or a
thrown error. -/
inductive BranchOutcome where
  | deferred (effects : List WorkflowEffect)
  | completed (effects : List WorkflowEffect) (executionResult : RawResponse)
      (shouldPoll : Bool) (pollType : Option PollType)
  | threw (effects : List WorkflowEffect) (e : JsError)

/-- The step patch written by `markStepFailed` (the step row exists, so
`retries` is incremented). -/
def markStepFailedUpdate (nowMs : Int) (step : WorkflowStep)
    (errorMessage : String) : WorkflowStepUpdate :=
  { last_try_at := some nowMs,
    status := some EWorkflowStepStatus.FAILED,
    raw_response := some { error := some errorMessage },
    updated_at := some nowMs,
    retries := some (step.retries + 1) }

/-- `acceptedPath?.delayMs || 0`. -/
def acceptedTimeoutMs (nextStepsInfo : List StoredNextStep) : Int :=
  jsOrInt ((nextStepsInfo.find?
    (fun s => s.conditionalType = some CondType.accepted)).map (·.delayMs)) 0

/-- The `executionResult` of the `check_connection_status` branch. -/
def checkConnectionStatusResult (nowMs : Int) (step : WorkflowStep)
    (isConnected : Bool) : RawResponse :=
  let raw := step.raw_response.getD {}
  let nextStepsInfo := raw.nextSteps.getD []
  let pollingStartedAt := raw.pollingStartedAt.getD step.created_at
  let timeoutMs := acceptedTimeoutMs nextStepsInfo
  let hasTimedOut := decide (nowMs - pollingStartedAt > timeoutMs)
  { isConnected := some isConnected,
    providerId := raw.providerId,
    nextStepsInfo := some nextStepsInfo,
    pollingStartedAt := some pollingStartedAt,
    shouldContinuePolling := some (!isConnected && !hasTimedOut),
    hasTimedOut := some hasTimedOut }

/-- The `executionResult` of the `check_message_reply` branch
(`hasReplied` is read from the persisted `raw_response`, written by the
reply webhook; no provider call is made). -/
def checkMessageReplyResult (nowMs : Int) (step : WorkflowStep) : RawResponse :=
  let raw := step.raw_response.getD {}
  let nextStepsInfo := raw.nextSteps.getD []
  let pollingStartedAt := raw.pollingStartedAt.getD step.created_at
  let hasReplied := raw.hasReplied = some true
  let timeoutMs := acceptedTimeoutMs nextStepsInfo
  let hasTimedOut := decide (nowMs - pollingStartedAt > timeoutMs)
  { hasReplied := some (decide hasReplied),
    providerId := raw.providerId,
    nextStepsInfo := some nextStepsInfo,
    pollingStartedAt := some pollingStartedAt,
    shouldContinuePolling := some (!(decide hasReplied) && !hasTimedOut),
    hasTimedOut := some hasTimedOut }

/-- The `send_connection_request` branch after the sender-cooldown gate:
rate-limit gate, profile visit, invitation, counter increment. -/
def sendConnectionRequestAfterGate (env : ExecEnv) (identifier : String)
    (config : NodeConfig) : BranchOutcome :=
  let lim := checkConnectionRequestLimits (some env.campaignCounters) env.nowMs
    env.dailyLimit env.weeklyLimit
  let upd := lim.updateData
  let updEffects : List WorkflowEffect :=
    if upd = ({} : ConnectionRequestLimitsUpdate) then []
    else [.campaignUpdate env.campaignId upd]
  if ¬ lim.result.canProceed ∧ lim.result.waitUntilMs ≠ none then
    .deferred (updEffects ++
      [.stepUpdate env.step.id
        { execute_after := some (jsFloorDiv (env.nowMs + lim.result.waitUntilMs.getD 0) 1000),
          updated_at := some env.nowMs }])
  else
    let v := visitLinkedInProfile env.nowMs env.sender.provider_account_id identifier
      env.leadId (some false) env.oracle.visitProfile
    match v.2 with
    | .error e => .threw (updEffects ++ v.1) e
    | .ok profile =>
      if profile.provider = "LINKEDIN" then
        let providerId := profile.provider_id
        let invEff := WorkflowEffect.providerCall
          (.sendInvitation env.sender.provider_account_id providerId
            (sendLinkedInInvitationMessage config))
        match env.oracle.sendInvitation with
        | .error e => .threw (updEffects ++ v.1 ++ [invEff]) e
        | .ok _ =>
          let incr : ConnectionRequestLimitsUpdate :=
            { upd with
              requests_sent_this_day := some (lim.result.requestsSentThisDay + 1),
              requests_sent_this_week := some (lim.result.requestsSentThisWeek + 1) }
          .completed
            (updEffects ++ v.1 ++ [invEff, .campaignUpdate env.campaignId incr])
            { providerId := some providerId, pollingStartedAt := some env.nowMs }
            true (some PollType.connection_status)
      else
        .completed (updEffects ++ v.1) { error := some "Unsupported provider" } false none

/-- The `switch (step.step_type)` of `executeStepAndAddNextStep`. -/
def executeBranch (env : ExecEnv) (identifier : String) (config : NodeConfig) :
    BranchOutcome :=
  match env.step.step_type with
  | EStepType.profile_visit =>
    let v := visitLinkedInProfile env.nowMs env.sender.provider_account_id identifier
      env.leadId (some false) env.oracle.visitProfile
    match v.2 with
    | .error e => .threw v.1 e
    | .ok p =>
      if p.provider = "LINKEDIN" then
        .completed v.1 { provider_id := some p.provider_id } false none
      else
        .completed v.1 { error := some "Unsupported provider" } false none
  | EStepType.send_connection_request =>
    match env.sender.connection_request_blocked_until with
    | some blockedUntil =>
      if blockedUntil > env.nowMs then
        .deferred [.stepUpdate env.step.id
          { execute_after := some (jsFloorDiv blockedUntil 1000),
            updated_at := some env.nowMs }]
      else sendConnectionRequestAfterGate env identifier config
    | none => sendConnectionRequestAfterGate env identifier config
  | EStepType.like_post =>
    let v := visitLinkedInProfile env.nowMs env.sender.provider_account_id identifier
      env.leadId (some false) env.oracle.visitProfile
    match v.2 with
    | .error e => .threw v.1 e
    | .ok p =>
      if p.provider = "LINKEDIN" then
        let eff := WorkflowEffect.providerCall
          (.likePost env.sender.provider_account_id p.provider_id
            (jsOrInt config.recentPostDays 7) "like")
        match env.oracle.likePost with
        | .error e => .threw (v.1 ++ [eff]) e
        | .ok _ => .completed (v.1 ++ [eff]) {} false none
      else
        .completed v.1 { error := some "Unsupported provider" } false none
  | EStepType.comment_post =>
    let v := visitLinkedInProfile env.nowMs env.sender.provider_account_id identifier
      env.leadId (some false) env.oracle.visitProfile
    match v.2 with
    | .error e => .threw v.1 e
    | .ok p =>
      if p.provider = "LINKEDIN" then
        let eff := WorkflowEffect.providerCall
          (.commentPost env.sender.provider_account_id p.provider_id)
        match env.oracle.commentPost with
        | .error e => .threw (v.1 ++ [eff]) e
        | .ok _ => .completed (v.1 ++ [eff]) {} false none
      else
        .completed v.1 { error := some "Unsupported provider" } false none
  | EStepType.send_followup =>
    let v := visitLinkedInProfile env.nowMs env.sender.provider_account_id identifier
      env.leadId (some false) env.oracle.visitProfile
    match v.2 with
    | .error e => .threw v.1 e
    | .ok p =>
      if p.provider = "LINKEDIN" then
        let eff := WorkflowEffect.providerCall
          (.startNewChat env.sender.provider_account_id [p.provider_id]
            (config.customMessage.getD ""))
        match env.oracle.sendMessage with
        | .error e => .threw (v.1 ++ [eff]) e
        | .ok _ =>
          .completed (v.1 ++ [eff])
            { providerId := some p.provider_id, pollingStartedAt := some env.nowMs }
            true (some PollType.message_reply)
      else
        .completed v.1 { error := some "Unsupported provider" } false none
  | EStepType.withdraw_request =>
    let v := visitLinkedInProfile env.nowMs env.sender.provider_account_id identifier
      env.leadId (some false) env.oracle.visitProfile
    match v.2 with
    | .error e => .threw v.1 e
    | .ok p =>
      if p.provider = "LINKEDIN" then
        let eff := WorkflowEffect.providerCall
          (.withdrawInvitation env.sender.provider_account_id p.provider_id)
        match env.oracle.withdrawInvitation with
        | .error e => .threw (v.1 ++ [eff]) e
        | .ok _ => .completed (v.1 ++ [eff]) {} false none
      else
        .completed v.1 { error := some "Unsupported provider" } false none
  | EStepType.webhook => .completed [] {} false none
  | EStepType.send_inmail => .completed [] {} false none
  | EStepType.check_connection_status =>
    let callEff := WorkflowEffect.providerCall
      (.isConnectedQuery env.sender.provider_account_id identifier)
    match env.oracle.isConnected with
    | .error e => .threw [callEff] e
    | .ok b => .completed [callEff] (checkConnectionStatusResult env.nowMs env.step b) false none
  | EStepType.check_message_reply =>
    .completed [] (checkMessageReplyResult env.nowMs env.step) false none

/-- `executeStepAndAddNextStep(lead, step, sender, workflowData,
campaign)`: the full executor, returning the side effects it performs in
program order. -/
def executeStepAndAddNextStep (env : ExecEnv) : List WorkflowEffect :=
  match env.identifier with
  | none =>
    [.stepUpdate env.step.id (markStepFailedUpdate env.nowMs env.step "Invalid LinkedIn URL")]
  | some identifier =>
    match env.workflow.nodes.find? (fun n => n.id = env.step.id_in_workflow) with
    | none =>
      [.stepUpdate env.step.id
        (markStepFailedUpdate env.nowMs env.step "Node not found in workflow")]
    | some currentNode =>
      match executeBranch env identifier currentNode.data.config with
      | .deferred effs => effs
      | .completed effs executionResult shouldPoll pollType =>
        let created := createNextSteps env.nowMs env.step env.leadId env.workflow
          currentNode executionResult shouldPoll pollType
        effs ++
          [.stepUpdate env.step.id
            { status := some EWorkflowStepStatus.COMPLETE,
              raw_response := some executionResult,
              updated_at := some env.nowMs }] ++
          (if created.isEmpty then [] else [.stepsCreated created])
      | .threw effs e =>
        effs ++
          (if isCannotResendYet e ∧ env.step.step_type = EStepType.send_connection_request then
            [.senderBlockedUntil env.sender.id (env.nowMs + 24 * 60 * 60 * 1000),
             .deferPendingConnectionRequests env.sender.id]
          else []) ++
          [.stepUpdate env.step.id (markStepFailedUpdate env.nowMs env.step (normalizeErrorMessage e))]

/-! ## Sender-wide cooldown deferral (`deferConnectionRequestStepsForSender`) -/

/-- A `campaigns` row (fields used by the deferral). -/
structure CampaignRec where
  id : String
  sender_account : Option String := none
  is_deleted : Bool := false
deriving DecidableEq, Repr

/-- A `leads` row (fields used by the deferral and the reply webhook). -/
structure LeadRec where
  id : String
  campaign_id : String
  linkedin_id : Option String := none
deriving DecidableEq, Repr

/-- `CampaignRepository.findBySenderAccount`: campaigns of the sender,
excluding soft-deleted ones (`neq is_deleted true`). -/
def findBySenderAccount (campaigns : List CampaignRec) (senderAccountId : String) :
    List CampaignRec :=
  campaigns.filter (fun c => c.sender_account = some senderAccountId ∧ c.is_deleted ≠ true)

/-- `LeadRepository.findLeadIdsByCampaignIds`: `[]` for an empty id
list, else the ids of the leads whose `campaign_id` is in the given list
(`select('id').in('campaign_id', campaignIds)`). -/
def findLeadIdsByCampaignIds (leads : List LeadRec) (campaignIds : List String) :
    List String :=
  if campaignIds.isEmpty then []
  else (leads.filter (fun l => campaignIds.contains l.campaign_id)).map (·.id)

/-- `WorkflowStepsRepository.findPendingConnectionRequestStepsByLeadIds`. -/
def findPendingConnectionRequestStepsByLeadIds (stepsDB : List WorkflowStep)
    (leadIds : List String) : List WorkflowStep :=
  if leadIds.isEmpty then []
  else stepsDB.filter fun s =>
    leadIds.contains s.lead_id ∧ s.status = EWorkflowStepStatus.PENDING ∧
      s.step_type = EStepType.send_connection_request ∧
      s.workflow_type = EWorkflowType.CAMPAIGN_WORKFLOW

/-- `deferConnectionRequestStepsForSender(senderAccountId)`: pushes
`execute_after` of every pending connection-request step of the sender's
campaigns to `floor((now + 24h)/1000)`; returns the updated step table. -/
def deferConnectionRequestStepsForSender (nowMs : Int) (senderAccountId : String)
    (campaigns : List CampaignRec) (leads : List LeadRec)
    (stepsDB : List WorkflowStep) : List WorkflowStep :=
  let campaignIds := (findBySenderAccount campaigns senderAccountId).map (·.id)
  if campaignIds.isEmpty then stepsDB
  else
    let leadIds := findLeadIdsByCampaignIds leads campaignIds
    if leadIds.isEmpty then stepsDB
    else
      let toDefer := findPendingConnectionRequestStepsByLeadIds stepsDB leadIds
      let executeAfterSeconds := jsFloorDiv (nowMs + 24 * 60 * 60 * 1000) 1000
      stepsDB.map fun s =>
        if (toDefer.map (·.id)).contains s.id then
          { s with execute_after := executeAfterSeconds, updated_at := nowMs }
        else s

/-! ## Reply webhook (`routes/webhook/unipileReply.ts`) -/

/-- `LeadRepository.findByLinkedinIds`: the leads whose stored
`linkedin_id` is among the given provider ids
(`select('*').in('linkedin_id', linkedinIds)`; a null `linkedin_id`
matches nothing). -/
def findByLinkedinIds (leads : List LeadRec) (linkedInIds : List String) :
    List LeadRec :=
  leads.filter fun l =>
    match l.linkedin_id with
    | some x => linkedInIds.contains x
    | none => false

/-- Modelled from the spec:
`WorkflowStepsRepository.findByLeadIdsWhereStepTypeIs` is not among the
analysed sources; per the spec it returns all `PENDING` steps of the
given step type belonging to the given leads. -/
def findByLeadIdsWhereStepTypeIs (stepsDB : List WorkflowStep)
    (leadIds : List String) (stepType : EStepType) : List WorkflowStep :=
  stepsDB.filter fun s =>
    leadIds.contains s.lead_id ∧ s.step_type = stepType ∧
      s.status = EWorkflowStepStatus.PENDING

/-- The `POST /api/webhooks/unipileReply` handler: marks the matching
polling steps as replied (`updateMany` applies one payload, built from
the **first** matching step's `raw_response`, to all matched ids) and
answers `{captured: true}`.  Returns the updated step table and the
`captured` flag. -/
def unipileReplyPOST (nowMs : Int) (attendeeProviderIds : List String)
    (leads : List LeadRec) (stepsDB : List WorkflowStep) :
    List WorkflowStep × Bool :=
  let attendeesInDB := findByLinkedinIds leads attendeeProviderIds
  let steps := findByLeadIdsWhereStepTypeIs stepsDB (attendeesInDB.map (·.id))
    EStepType.check_message_reply
  if steps.length > 0 then
    let stepIds := steps.map (·.id)
    let firstRaw : RawResponse :=
      match stepIds.head? with
      | some i0 =>
        (match steps.find? (fun it => it.id = i0) with
         | some st => st.raw_response.getD {}
         | none => {})
      | none => {}
    let payload : RawResponse := { firstRaw with hasReplied := some true }
    (stepsDB.map (fun s =>
      if stepIds.contains s.id then
        { s with raw_response := some payload, updated_at := nowMs }
      else s), true)
  else (stepsDB, true)

/-! # Claim theorems -/

/-- C2.  When a `send_connection_request` step is executed while the
sender's `connection_request_blocked_until` is set and strictly in the
future, the executor performs exactly one effect: it sets the step's
`execute_after` to `floor(blocked_until / 1000)` (Unix seconds) and
returns.  In particular no provider call is made, the step is not marked
`COMPLETE` or `FAILED` (the patch carries no `status`, so a `PENDING`
step stays `PENDING`), and no successor is created; hence no such step
executes while `now < blocked_until`. -/
theorem send_connection_request_cooldown_defers (env : ExecEnv) (idf : String)
    (node : WorkflowNode) (blockedUntil : Int)
    (h1 : env.identifier = some idf)
    (h2 : env.workflow.nodes.find? (fun n => n.id = env.step.id_in_workflow) = some node)
    (h3 : env.step.step_type = EStepType.send_connection_request)
    (h4 : env.sender.connection_request_blocked_until = some blockedUntil)
    (h5 : blockedUntil > env.nowMs) :
    executeStepAndAddNextStep env =
      [.stepUpdate env.step.id
        { execute_after := some (jsFloorDiv blockedUntil 1000),
          updated_at := some env.nowMs }] := by
  simp [executeStepAndAddNextStep, h1, h2, executeBranch, h3, h4, h5]

/-- C4.  A `check_message_reply` step whose persisted `raw_response` has
`hasReplied = true` completes with `hasReplied = true` in its execution
result, the successor planner creates zero successor steps for the lead,
and the executor's only effect is the `COMPLETE` step update (so in
particular no further `check_message_reply` step is created). -/
theorem reply_terminates_branch (env : ExecEnv) (idf : String) (node : WorkflowNode)
    (h1 : env.identifier = some idf)
    (h2 : env.workflow.nodes.find? (fun n => n.id = env.step.id_in_workflow) = some node)
    (h3 : env.step.step_type = EStepType.check_message_reply)
    (h4 : (env.step.raw_response.getD {}).hasReplied = some true) :
    (checkMessageReplyResult env.nowMs env.step).hasReplied = some true ∧
    createNextSteps env.nowMs env.step env.leadId env.workflow node
      (checkMessageReplyResult env.nowMs env.step) false none = [] ∧
    executeStepAndAddNextStep env =
      [.stepUpdate env.step.id
        { status := some EWorkflowStepStatus.COMPLETE,
          raw_response := some (checkMessageReplyResult env.nowMs env.step),
          updated_at := some env.nowMs }] := by
  have hcreate : createNextSteps env.nowMs env.step env.leadId env.workflow node
      (checkMessageReplyResult env.nowMs env.step) false none = [] := by
    simp [createNextSteps, checkMessageReplyResult, h3, h4]
  refine ⟨by simp [checkMessageReplyResult, h4], hcreate, ?_⟩
  simp [executeStepAndAddNextStep, h1, h2, executeBranch, h3, hcreate]

/-- C7 (evaluation at the failing input).  Even when the caller passes
`notify: false` — as the step executor does for every profile visit —
`visitLinkedInProfile` issues the provider `getProfile` call with
`notify = true`, because `params.notify || true` is always `true`.  The
claim (and the executor's own call sites) say the call is made with
`notify = false`. -/
theorem visitProfile_notify_always_true (nowMs : Int)
    (accountId identifier leadId : String) (outcome : Except JsError ProviderProfile) :
    (visitLinkedInProfile nowMs accountId identifier leadId (some false) outcome).1.head? =
      some (.providerCall (.getProfile accountId identifier true)) := by
  cases outcome
  · simp [visitLinkedInProfile, jsOrBool]
  · simp only [visitLinkedInProfile, jsOrBool]
    split <;> simp

/-- C5.  A `check_connection_status` step that completes with
`isConnected = false` and `hasTimedOut = true` (i.e. `now −
pollingStartedAt` exceeds the stored accepted branch's `delayMs`, `0` if
absent): the planner creates exactly one `PENDING` successor at the
target of the stored `not_accepted` branch — with `execute_after =
floor(now/1000)`, `step_index = prev + 1`, `retries = 0` — when such a
branch exists (its target node being present in the immutable workflow),
and creates no successor otherwise.  The characterization is exact, so
the accepted-branch target is never scheduled in this case. -/
theorem timeout_takes_not_accepted (nowMs : Int) (step : WorkflowStep)
    (leadId : String) (workflow : WorkflowJson) (node : WorkflowNode)
    (hty : step.step_type = EStepType.check_connection_status)
    (htime : nowMs - ((step.raw_response.getD {}).pollingStartedAt.getD step.created_at) >
      acceptedTimeoutMs ((step.raw_response.getD {}).nextSteps.getD [])) :
    (checkConnectionStatusResult nowMs step false).isConnected = some false ∧
    (checkConnectionStatusResult nowMs step false).hasTimedOut = some true ∧
    (∀ p, ((step.raw_response.getD {}).nextSteps.getD []).find?
        (fun s => s.conditionalType = some CondType.not_accepted) = some p →
      ∀ n, workflow.nodes.find? (fun nd => nd.id = p.nodeId) = some n →
        createNextSteps nowMs step leadId workflow node
          (checkConnectionStatusResult nowMs step false) false none =
          [{ organization_id := step.organization_id, lead_id := leadId,
             id_in_workflow := p.nodeId, step_index := step.step_index + 1,
             workflow_type := EWorkflowType.CAMPAIGN_WORKFLOW,
             step_type := n.data.type, status := EWorkflowStepStatus.PENDING,
             retries := 0, execute_after := jsFloorDiv nowMs 1000,
             raw_response := none, created_at := nowMs, updated_at := nowMs }]) ∧
    (((step.raw_response.getD {}).nextSteps.getD []).find?
        (fun s => s.conditionalType = some CondType.not_accepted) = none →
      createNextSteps nowMs step leadId workflow node
        (checkConnectionStatusResult nowMs step false) false none = []) := by
  refine ⟨by simp [checkConnectionStatusResult], by simp [checkConnectionStatusResult, htime], ?_, ?_⟩
  · intro p hp n hn
    simp [createNextSteps, checkConnectionStatusResult, hty, htime, hp, hn]
  · intro hp
    simp [createNextSteps, checkConnectionStatusResult, hty, htime, hp]

/-- C9.  `step_index` is strictly increasing along every realized path:
every step produced by the successor planner (polling re-arm,
conditional branch selection, polling-step creation, or non-conditional
fan-out) carries `step_index = prev.step_index + 1`, and every entry
step created for a newly admitted lead carries `step_index = 0`. -/
theorem step_index_monotone :
    (∀ (nowMs : Int) (step : WorkflowStep) (leadId : String)
        (workflow : WorkflowJson) (node : WorkflowNode) (res : RawResponse)
        (shouldPoll : Bool) (pollType : Option PollType) (s : CreateWorkflowStep),
      s ∈ createNextSteps nowMs step leadId workflow node res shouldPoll pollType →
        s.step_index = step.step_index + 1) ∧
    (∀ (nowMs : Int) (organizationId : String) (leadIds : List String)
        (firstNode : WorkflowNode) (s : CreateWorkflowStep),
      s ∈ entryWorkflowSteps nowMs organizationId leadIds firstNode →
        s.step_index = 0) := by
  constructor
  · intro nowMs step leadId workflow node res shouldPoll pollType s hs
    simp only [createNextSteps] at hs
    repeat' split at hs
    all_goals
      first
      | (simp only [List.mem_singleton] at hs; subst hs; rfl)
      | (simp only [List.mem_map] at hs; obtain ⟨t, _, rfl⟩ := hs; rfl)
      | (exact absurd hs (by simp))
  · intro nowMs organizationId leadIds firstNode s hs
    simp only [entryWorkflowSteps, List.mem_map] at hs
    obtain ⟨t, _, rfl⟩ := hs
    rfl

/-- The C1 property of `checkConnectionRequestLimits` for a non-null
campaign: boundary resets recorded in `updateData` (a boundary in the
sense of the source's `isNewDay`/`isNewWeek` predicates, or a missing
reset timestamp), `canProceed = false` exactly when a post-reset counter
reaches its limit, and in that case `waitUntilMs` is the time from `now`
to the latest applicable reset boundary (next local midnight for the
daily limit, next Monday midnight for the weekly limit).  Totality of
the embedded function reflects that the source never throws. -/
def connectionRequestLimitsClaim (c : CampaignRequestCounts)
    (nowMs dailyLimit weeklyLimit : Int) : Prop :=
  let out := checkConnectionRequestLimits (some c) nowMs dailyLimit weeklyLimit
  let dayCount : Int := if dailyResetDue c nowMs then 0 else c.requests_sent_this_day.getD 0
  let weekCount : Int := if weeklyResetDue c nowMs then 0 else c.requests_sent_this_week.getD 0
  (out.updateData.requests_sent_this_day =
      if dailyResetDue c nowMs then some 0 else none) ∧
  (out.updateData.last_daily_requests_reset =
      if dailyResetDue c nowMs then some nowMs else none) ∧
  (out.updateData.requests_sent_this_week =
      if weeklyResetDue c nowMs then some 0 else none) ∧
  (out.updateData.last_weekly_requests_reset =
      if weeklyResetDue c nowMs then some nowMs else none) ∧
  out.result.requestsSentThisDay = dayCount ∧
  out.result.requestsSentThisWeek = weekCount ∧
  (out.result.canProceed = false ↔ dayCount ≥ dailyLimit ∨ weekCount ≥ weeklyLimit) ∧
  (dayCount ≥ dailyLimit ∧ weekCount ≥ weeklyLimit →
      out.result.waitUntilMs =
        some (max (getNextDayReset nowMs - nowMs) (getNextWeekReset nowMs - nowMs))) ∧
  (dayCount ≥ dailyLimit ∧ ¬ weekCount ≥ weeklyLimit →
      out.result.waitUntilMs = some (getNextDayReset nowMs - nowMs)) ∧
  (¬ dayCount ≥ dailyLimit ∧ weekCount ≥ weeklyLimit →
      out.result.waitUntilMs = some (getNextWeekReset nowMs - nowMs)) ∧
  (out.result.canProceed = true → out.result.waitUntilMs = none)

set_option maxHeartbeats 2000000 in
/-- C1.  The rate-limit gate behaves as specified for every non-null
campaign record, every clock value and every limit configuration
(`REQUESTS_PER_DAY`/`REQUESTS_PER_WEEK`, defaults 60/200). -/
theorem checkConnectionRequestLimits_spec (c : CampaignRequestCounts)
    (nowMs dailyLimit weeklyLimit : Int) :
    connectionRequestLimitsClaim c nowMs dailyLimit weeklyLimit := by
  dsimp only [connectionRequestLimitsClaim, checkConnectionRequestLimits]
  generalize dailyResetDue c nowMs = dDue
  generalize weeklyResetDue c nowMs = wDue
  generalize c.requests_sent_this_day.getD 0 = d0
  generalize c.requests_sent_this_week.getD 0 = w0
  generalize getNextDayReset nowMs - nowMs = nd
  generalize getNextWeekReset nowMs - nowMs = nw
  cases dDue <;> cases wDue <;>
    by_cases h1 : d0 ≥ dailyLimit <;> by_cases h2 : w0 ≥ weeklyLimit <;>
    by_cases h3 : (0 : Int) ≥ dailyLimit <;> by_cases h4 : (0 : Int) ≥ weeklyLimit <;>
    (try simp_all) <;> (try (split_ifs <;> simp_all))

/-- The claim's per-step condition for the sender-wide deferral: the step
belongs to a lead of a (non-deleted, cf. §3) campaign whose sender is
the given account. -/
def stepUsesSender (senderAccountId : String) (campaigns : List CampaignRec)
    (leads : List LeadRec) (s : WorkflowStep) : Bool :=
  leads.any fun l =>
    decide (l.id = s.lead_id) &&
      campaigns.any fun cp =>
        decide (cp.id = l.campaign_id) &&
          decide (cp.sender_account = some senderAccountId) && !cp.is_deleted

theorem mem_findLeadIdsByCampaignIds (leads : List LeadRec)
    (campaignIds : List String) (x : String) :
    x ∈ findLeadIdsByCampaignIds leads campaignIds ↔
      ∃ l ∈ leads, l.campaign_id ∈ campaignIds ∧ l.id = x := by
  unfold findLeadIdsByCampaignIds
  by_cases h : campaignIds.isEmpty
  · have hnil : campaignIds = [] := by simpa [List.isEmpty_iff] using h
    subst hnil
    simp
  · rw [if_neg h]
    simp [List.mem_filter]
    tauto

theorem stepUsesSender_eq_true_iff (sid : String) (campaigns : List CampaignRec)
    (leads : List LeadRec) (s : WorkflowStep) :
    stepUsesSender sid campaigns leads s = true ↔
      s.lead_id ∈ findLeadIdsByCampaignIds leads
        ((findBySenderAccount campaigns sid).map (·.id)) := by
  rw [mem_findLeadIdsByCampaignIds]
  simp [stepUsesSender, findBySenderAccount, List.any_eq_true, List.mem_filter]
  tauto

/-- C3.  A provider error with code `cannot_resend_yet` on a
`send_connection_request` step makes the executor (i) set the sender's
`connection_request_blocked_until` to `now + 24h`, (ii) run the
sender-wide deferral, and (iii) mark the step `FAILED` with incremented
`retries`, `last_try_at = now` and `raw_response = {error: message}`;
and the deferral sets `execute_after = floor((now + 24h)/1000)` on
exactly the `PENDING` `send_connection_request` steps (of the campaign
workflow) belonging to a lead of a campaign using that sender, leaving
every other step row unchanged. -/
theorem cannot_resend_yet_cooldown :
    (∀ (env : ExecEnv) (idf : String) (node : WorkflowNode)
        (p : ProviderProfile) (e : JsError),
      env.identifier = some idf →
      env.workflow.nodes.find? (fun n => n.id = env.step.id_in_workflow) = some node →
      env.step.step_type = EStepType.send_connection_request →
      env.sender.connection_request_blocked_until = none →
      (checkConnectionRequestLimits (some env.campaignCounters) env.nowMs
        env.dailyLimit env.weeklyLimit).result.canProceed = true →
      env.oracle.visitProfile = .ok p →
      p.provider = "LINKEDIN" →
      env.oracle.sendInvitation = .error e →
      isCannotResendYet e = true →
      WorkflowEffect.senderBlockedUntil env.sender.id (env.nowMs + 24 * 60 * 60 * 1000) ∈
          executeStepAndAddNextStep env ∧
        WorkflowEffect.deferPendingConnectionRequests env.sender.id ∈
          executeStepAndAddNextStep env ∧
        WorkflowEffect.stepUpdate env.step.id
            (markStepFailedUpdate env.nowMs env.step (normalizeErrorMessage e)) ∈
          executeStepAndAddNextStep env) ∧
    (∀ (nowMs : Int) (senderAccountId : String) (campaigns : List CampaignRec)
        (leads : List LeadRec) (stepsDB : List WorkflowStep),
      (stepsDB.map (·.id)).Nodup →
      deferConnectionRequestStepsForSender nowMs senderAccountId campaigns leads stepsDB =
        stepsDB.map (fun s =>
          if stepUsesSender senderAccountId campaigns leads s ∧
              s.status = EWorkflowStepStatus.PENDING ∧
              s.step_type = EStepType.send_connection_request ∧
              s.workflow_type = EWorkflowType.CAMPAIGN_WORKFLOW then
            { s with execute_after := jsFloorDiv (nowMs + 24 * 60 * 60 * 1000) 1000,
                     updated_at := nowMs }
          else s)) := by
  constructor
  · intro env idf node p e h1 h2 h3 h4 h5 h6 h7 h8 h9
    by_cases hupd : (checkConnectionRequestLimits (some env.campaignCounters) env.nowMs
        env.dailyLimit env.weeklyLimit).updateData = ({} : ConnectionRequestLimitsUpdate) <;>
      simp [executeStepAndAddNextStep, h1, h2, executeBranch, h3, h4,
        sendConnectionRequestAfterGate, h5, h6, h7, h8, h9, hupd,
        visitLinkedInProfile]
  · intro nowMs senderAccountId campaigns leads stepsDB hN
    set campaignIds := (findBySenderAccount campaigns senderAccountId).map (·.id) with hcdef
    by_cases hc : campaignIds = []
    · have hfalse : ∀ s : WorkflowStep,
          ¬ stepUsesSender senderAccountId campaigns leads s = true := by
        intro s htrue
        rw [stepUsesSender_eq_true_iff, ← hcdef, hc] at htrue
        simp [findLeadIdsByCampaignIds] at htrue
      unfold deferConnectionRequestStepsForSender
      rw [← hcdef, hc]
      simp only [List.isEmpty_nil, if_true]
      have hf : ∀ s ∈ stepsDB,
          (if stepUsesSender senderAccountId campaigns leads s ∧
              s.status = EWorkflowStepStatus.PENDING ∧
              s.step_type = EStepType.send_connection_request ∧
              s.workflow_type = EWorkflowType.CAMPAIGN_WORKFLOW then
            { s with execute_after := jsFloorDiv (nowMs + 24 * 60 * 60 * 1000) 1000,
                     updated_at := nowMs }
          else s) = s := by
        intro s _
        rw [if_neg]
        rintro ⟨hu, -⟩
        exact hfalse s hu
      rw [List.map_congr_left hf, List.map_id']
    · by_cases hl : findLeadIdsByCampaignIds leads campaignIds = []
      · have hfalse : ∀ s : WorkflowStep,
            ¬ stepUsesSender senderAccountId campaigns leads s = true := by
          intro s htrue
          rw [stepUsesSender_eq_true_iff, ← hcdef, hl] at htrue
          simp at htrue
        unfold deferConnectionRequestStepsForSender
        rw [← hcdef]
        have hcempty : campaignIds.isEmpty = false := by
          simpa [List.isEmpty_iff] using hc
        have hlempty : (findLeadIdsByCampaignIds leads campaignIds).isEmpty = true := by
          simp [List.isEmpty_iff, hl]
        rw [if_neg (by simp [hcempty]), if_pos (by simp [hlempty])]
        have hf : ∀ s ∈ stepsDB,
            (if stepUsesSender senderAccountId campaigns leads s ∧
                s.status = EWorkflowStepStatus.PENDING ∧
                s.step_type = EStepType.send_connection_request ∧
                s.workflow_type = EWorkflowType.CAMPAIGN_WORKFLOW then
              { s with execute_after := jsFloorDiv (nowMs + 24 * 60 * 60 * 1000) 1000,
                       updated_at := nowMs }
            else s) = s := by
          intro s _
          rw [if_neg]
          rintro ⟨hu, -⟩
          exact hfalse s hu
        rw [List.map_congr_left hf, List.map_id']
      · unfold deferConnectionRequestStepsForSender
        rw [← hcdef]
        have hcempty : campaignIds.isEmpty = false := by
          simpa [List.isEmpty_iff] using hc
        have hlempty : (findLeadIdsByCampaignIds leads campaignIds).isEmpty = false := by
          simpa [List.isEmpty_iff] using hl
        rw [if_neg (by simp [hcempty]), if_neg (by simp [hlempty])]
        apply List.map_congr_left
        intro s hs
        have hiff :
            s.id ∈ (findPendingConnectionRequestStepsByLeadIds stepsDB
                (findLeadIdsByCampaignIds leads campaignIds)).map (·.id) ↔
            (stepUsesSender senderAccountId campaigns leads s ∧
              s.status = EWorkflowStepStatus.PENDING ∧
              s.step_type = EStepType.send_connection_request ∧
              s.workflow_type = EWorkflowType.CAMPAIGN_WORKFLOW) := by
          simp only [findPendingConnectionRequestStepsByLeadIds, hlempty,
            Bool.false_eq_true, if_false]
          constructor
          · intro hmem
            obtain ⟨t, htmem, htid⟩ := List.mem_map.mp hmem
            obtain ⟨htin, htpred⟩ := List.mem_filter.mp htmem
            have hts : t = s := List.inj_on_of_nodup_map hN htin hs htid
            subst hts
            simp only [decide_eq_true_eq] at htpred
            obtain ⟨hcontain, hst, hty, hwf⟩ := htpred
            refine ⟨?_, hst, hty, hwf⟩
            rw [stepUsesSender_eq_true_iff, ← hcdef]
            simpa using hcontain
          · rintro ⟨hu, hst, hty, hwf⟩
            have hcontain : (findLeadIdsByCampaignIds leads campaignIds).contains
                s.lead_id = true := by
              rw [stepUsesSender_eq_true_iff, ← hcdef] at hu
              simpa using hu
            exact List.mem_map.mpr
              ⟨s, List.mem_filter.mpr
                ⟨hs, by simp only [decide_eq_true_eq]
                        exact ⟨hcontain, hst, hty, hwf⟩⟩, rfl⟩
        by_cases hcond : stepUsesSender senderAccountId campaigns leads s ∧
            s.status = EWorkflowStepStatus.PENDING ∧
            s.step_type = EStepType.send_connection_request ∧
            s.workflow_type = EWorkflowType.CAMPAIGN_WORKFLOW
        · rw [if_pos (by simpa using hiff.mpr hcond), if_pos hcond]
        · rw [if_neg (fun hcontra => hcond (hiff.mp (by simpa using hcontra))),
            if_neg hcond]

set_option maxHeartbeats 800000 in
/-- C10 (amended).  For a polling step whose stored `nextSteps` contain
no `accepted` entry, the computed `timeoutMs` is `0`, so any execution
strictly after `pollingStartedAt` yields `hasTimedOut = true` and
`shouldContinuePolling = false`; and if the stored entries also contain
no `not_accepted` entry (in particular when the preceding node's
outgoing edges are all unconditional), branch selection finds no match
and the lead's branch terminates after this single poll with no
successor created. -/
theorem poll_without_accepted_branch (nowMs : Int) (step : WorkflowStep)
    (leadId : String) (workflow : WorkflowJson) (node : WorkflowNode) (b : Bool)
    (hacc : ∀ e ∈ (step.raw_response.getD {}).nextSteps.getD [],
      e.conditionalType ≠ some CondType.accepted)
    (htime : nowMs > (step.raw_response.getD {}).pollingStartedAt.getD step.created_at) :
    (checkConnectionStatusResult nowMs step b).hasTimedOut = some true ∧
    (checkConnectionStatusResult nowMs step b).shouldContinuePolling = some false ∧
    (checkMessageReplyResult nowMs step).hasTimedOut = some true ∧
    (checkMessageReplyResult nowMs step).shouldContinuePolling = some false ∧
    ((∀ e ∈ (step.raw_response.getD {}).nextSteps.getD [],
        e.conditionalType ≠ some CondType.not_accepted) →
      (step.step_type = EStepType.check_connection_status →
        createNextSteps nowMs step leadId workflow node
          (checkConnectionStatusResult nowMs step b) false none = []) ∧
      (step.step_type = EStepType.check_message_reply →
        createNextSteps nowMs step leadId workflow node
          (checkMessageReplyResult nowMs step) false none = [])) := by
  have haccfind : ((step.raw_response.getD {}).nextSteps.getD []).find?
      (fun s => s.conditionalType = some CondType.accepted) = none :=
    List.find?_eq_none.mpr (fun x hx => by simp [hacc x hx])
  have htm : acceptedTimeoutMs ((step.raw_response.getD {}).nextSteps.getD []) = 0 := by
    simp [acceptedTimeoutMs, haccfind, jsOrInt]
  have hto : decide (nowMs - (step.raw_response.getD {}).pollingStartedAt.getD
      step.created_at > acceptedTimeoutMs ((step.raw_response.getD {}).nextSteps.getD [])) =
      true := by
    rw [htm]
    simpa [decide_eq_true_eq] using Int.sub_pos.mpr htime
  refine ⟨by simp [checkConnectionStatusResult, hto],
    by simp [checkConnectionStatusResult, hto],
    by simp [checkMessageReplyResult, hto],
    by simp [checkMessageReplyResult, hto], ?_⟩
  intro hnacc
  have hnaccfind : ((step.raw_response.getD {}).nextSteps.getD []).find?
      (fun s => s.conditionalType = some CondType.not_accepted) = none :=
    List.find?_eq_none.mpr (fun x hx => by simp [hnacc x hx])
  constructor
  · intro hty
    cases b <;>
      simp [createNextSteps, checkConnectionStatusResult, hty, hto, haccfind, hnaccfind]
  · intro hty
    by_cases hr : (step.raw_response.getD {}).hasReplied = some true <;>
      simp [createNextSteps, checkMessageReplyResult, hty, hto, hr, haccfind, hnaccfind]

/-- Fixture for the C10 counterexample: a `check_connection_status`
polling step whose stored `nextSteps` hold a single `not_accepted`
conditional entry and no `accepted` entry. -/
def c10Step : WorkflowStep :=
  { id := "s", organization_id := "org", lead_id := "L", id_in_workflow := "A",
    step_index := 1, workflow_type := EWorkflowType.CAMPAIGN_WORKFLOW,
    step_type := EStepType.check_connection_status,
    status := EWorkflowStepStatus.PENDING, retries := 0, execute_after := 0,
    raw_response := some
      { providerId := some "PID",
        nextSteps := some [{ nodeId := "B", edgeId := "e",
                             conditionalType := some CondType.not_accepted, delayMs := 0 }],
        pollingStartedAt := some 0 },
    created_at := 0, updated_at := 0 }

def c10NodeA : WorkflowNode :=
  { id := "A", type := EAction.action, data := { type := EStepType.send_connection_request } }

def c10NodeB : WorkflowNode :=
  { id := "B", type := EAction.action, data := { type := EStepType.withdraw_request } }

def c10Wf : WorkflowJson := { nodes := [c10NodeA, c10NodeB], edges := [] }

/-- C10 (counterexample).  The claim predicts that a polling step with no
`accepted` entry in its stored `nextSteps` terminates with no successor
on the first execution strictly after `pollingStartedAt`; but with a
stored `not_accepted` entry (and `isConnected = false`) the planner
schedules that branch: exactly one successor is created. -/
theorem poll_without_accepted_branch_counterexample :
    (((c10Step.raw_response.getD {}).nextSteps.getD []).all
        (fun e => e.conditionalType != some CondType.accepted)) = true ∧
    (1000 : Int) > (c10Step.raw_response.getD {}).pollingStartedAt.getD c10Step.created_at ∧
    (createNextSteps 1000 c10Step "L" c10Wf c10NodeA
        (checkConnectionStatusResult 1000 c10Step false) false none).length = 1 := by
  refine ⟨rfl, by decide, rfl⟩

/-- The head of a filtered list is its first match. -/
theorem head?_filter_eq_find? {α : Type} (p : α → Bool) (l : List α) :
    (l.filter p).head? = l.find? p := by
  induction l with
  | nil => rfl
  | cons x xs ih => by_cases h : p x <;> simp [List.filter_cons, List.find?_cons, h, ih]

/-- The per-step condition of the reply webhook, in the claim's
vocabulary: the step is a `PENDING` `check_message_reply` step of a lead
matched by one of the posted attendee provider ids. -/
def webhookMatches (leads : List LeadRec) (attendeeProviderIds : List String)
    (s : WorkflowStep) : Bool :=
  decide (s.lead_id ∈ (findByLinkedinIds leads attendeeProviderIds).map (·.id) ∧
    s.step_type = EStepType.check_message_reply ∧
    s.status = EWorkflowStepStatus.PENDING)

/-- The `raw_response` object the webhook spreads into its single update
payload: that of the **first** matching step. -/
def webhookPayloadRaw (stepsDB : List WorkflowStep) (leads : List LeadRec)
    (attendeeProviderIds : List String) : RawResponse :=
  match stepsDB.find? (webhookMatches leads attendeeProviderIds) with
  | some st => st.raw_response.getD {}
  | none => {}

set_option maxHeartbeats 800000 in
/-- C6 (amended).  The reply webhook answers `{captured: true}` and
updates exactly the `PENDING` `check_message_reply` steps of the matched
leads, replacing each of their `raw_response`s by the **first** matching
step's `raw_response` with `hasReplied := true` (so only the first
step's other `raw_response` fields are preserved); all other step rows
are unchanged. -/
theorem webhook_reply_marks_steps (nowMs : Int) (attendeeProviderIds : List String)
    (leads : List LeadRec) (stepsDB : List WorkflowStep)
    (hN : (stepsDB.map (·.id)).Nodup) :
    (unipileReplyPOST nowMs attendeeProviderIds leads stepsDB).2 = true ∧
    (unipileReplyPOST nowMs attendeeProviderIds leads stepsDB).1 =
      stepsDB.map (fun s =>
        if webhookMatches leads attendeeProviderIds s then
          { s with
            raw_response := some { webhookPayloadRaw stepsDB leads attendeeProviderIds with
                                     hasReplied := some true },
            updated_at := nowMs }
        else s) := by
  have hsteps : findByLeadIdsWhereStepTypeIs stepsDB
      ((findByLinkedinIds leads attendeeProviderIds).map (·.id))
      EStepType.check_message_reply =
      stepsDB.filter (webhookMatches leads attendeeProviderIds) := by
    unfold findByLeadIdsWhereStepTypeIs webhookMatches
    apply List.filter_congr
    intro s _
    rw [decide_eq_decide.mpr]
    constructor
    · rintro ⟨h1, h2, h3⟩
      exact ⟨by simpa using h1, h2, h3⟩
    · rintro ⟨h1, h2, h3⟩
      exact ⟨by simpa using h1, h2, h3⟩
  constructor
  · unfold unipileReplyPOST
    dsimp only
    split <;> rfl
  · unfold unipileReplyPOST
    dsimp only
    rw [hsteps]
    rcases hfilter : stepsDB.filter (webhookMatches leads attendeeProviderIds) with
      _ | ⟨st0, rest⟩
    · simp only [hfilter, List.length_nil, gt_iff_lt, lt_self_iff_false, if_false]
      have hf : ∀ s ∈ stepsDB,
          (if webhookMatches leads attendeeProviderIds s then
            { s with
              raw_response := some { webhookPayloadRaw stepsDB leads attendeeProviderIds with
                                       hasReplied := some true },
              updated_at := nowMs }
          else s) = s := by
        intro s hsin
        rw [if_neg]
        intro hM
        have hmem : s ∈ stepsDB.filter (webhookMatches leads attendeeProviderIds) :=
          List.mem_filter.mpr ⟨hsin, hM⟩
        rw [hfilter] at hmem
        simp at hmem
      rw [List.map_congr_left hf, List.map_id']
    · have hfind : stepsDB.find? (webhookMatches leads attendeeProviderIds) = some st0 := by
        rw [← head?_filter_eq_find?, hfilter]
        rfl
      have hpayload : webhookPayloadRaw stepsDB leads attendeeProviderIds =
          st0.raw_response.getD {} := by
        unfold webhookPayloadRaw
        rw [hfind]
      simp only [hfilter, List.map_cons, List.head?_cons, List.length_cons,
        gt_iff_lt, Nat.succ_pos, if_pos, Option.some.injEq]
      have hfirst : (st0 :: rest).find? (fun it => it.id = st0.id) = some st0 := by
        simp [List.find?_cons]
      rw [List.find?_cons_of_pos _ (by simp)]
      apply List.map_congr_left
      intro s hs
      have hiff : ((st0 :: rest).map (·.id)).contains s.id = true ↔
          webhookMatches leads attendeeProviderIds s = true := by
        constructor
        · intro hcont
          have hmem : s.id ∈ (stepsDB.filter
              (webhookMatches leads attendeeProviderIds)).map (·.id) := by
            rw [hfilter, List.map_cons]
            simpa using hcont
          obtain ⟨t, htmem, htid⟩ := List.mem_map.mp hmem
          obtain ⟨htin, htM⟩ := List.mem_filter.mp htmem
          have hts : t = s := List.inj_on_of_nodup_map hN htin hs htid
          subst hts
          exact htM
        · intro hM
          have hmem : s.id ∈ (stepsDB.filter
              (webhookMatches leads attendeeProviderIds)).map (·.id) :=
            List.mem_map.mpr ⟨s, List.mem_filter.mpr ⟨hs, hM⟩, rfl⟩
          rw [hfilter, List.map_cons] at hmem
          simpa using hmem
      by_cases hM : webhookMatches leads attendeeProviderIds s = true
      · rw [if_pos (by simpa [List.map_cons] using hiff.mpr hM), if_pos hM, hpayload]
      · rw [if_neg (fun hcontra => hM (hiff.mp (by simpa [List.map_cons] using hcontra))),
          if_neg hM]

/-- Fixtures for the C6 counterexample: two matched leads, each with a
pending `check_message_reply` step carrying its own `providerId`. -/
def c6Lead1 : LeadRec := { id := "L1", campaign_id := "c", linkedin_id := some "a1" }

def c6Lead2 : LeadRec := { id := "L2", campaign_id := "c", linkedin_id := some "a2" }

def c6Step1 : WorkflowStep :=
  { id := "t1", organization_id := "org", lead_id := "L1", id_in_workflow := "B",
    step_index := 3, workflow_type := EWorkflowType.CAMPAIGN_WORKFLOW,
    step_type := EStepType.check_message_reply, status := EWorkflowStepStatus.PENDING,
    retries := 0, execute_after := 0, raw_response := some { providerId := some "P1" },
    created_at := 0, updated_at := 0 }

def c6Step2 : WorkflowStep :=
  { id := "t2", organization_id := "org", lead_id := "L2", id_in_workflow := "B",
    step_index := 3, workflow_type := EWorkflowType.CAMPAIGN_WORKFLOW,
    step_type := EStepType.check_message_reply, status := EWorkflowStepStatus.PENDING,
    retries := 0, execute_after := 0, raw_response := some { providerId := some "P2" },
    created_at := 0, updated_at := 0 }

/-- C6 (counterexample).  With two matched pending `check_message_reply`
steps carrying different `providerId`s, the webhook overwrites the
second step's `raw_response` with the first step's (plus
`hasReplied: true`): its own `providerId "P2"` is lost, so "the rest of
that step's own raw_response is preserved" is false. -/
theorem webhook_overwrites_other_steps_raw_response :
    (unipileReplyPOST 99 ["a1", "a2"] [c6Lead1, c6Lead2] [c6Step1, c6Step2]).1 =
      [{ c6Step1 with
         raw_response := some { providerId := some "P1", hasReplied := some true },
         updated_at := 99 },
       { c6Step2 with
         raw_response := some { providerId := some "P1", hasReplied := some true },
         updated_at := 99 }] ∧
    c6Step2.raw_response = some { providerId := some "P2" } :=
  ⟨rfl, rfl⟩

/-- Fixtures for the C8 counterexample: a `send_followup` step whose
node config asks for AI composition and has no custom message. -/
def c8Config : NodeConfig := { configureWithAI := some true }

def c8Node : WorkflowNode :=
  { id := "B", type := EAction.action,
    data := { type := EStepType.send_followup, config := c8Config } }

def c8Step : WorkflowStep :=
  { id := "s8", organization_id := "org", lead_id := "L", id_in_workflow := "B",
    step_index := 2, workflow_type := EWorkflowType.CAMPAIGN_WORKFLOW,
    step_type := EStepType.send_followup, status := EWorkflowStepStatus.PENDING,
    retries := 0, execute_after := 0, raw_response := none,
    created_at := 0, updated_at := 0 }

def c8Env : ExecEnv :=
  { nowMs := 1000, step := c8Step, leadId := "L", identifier := some "john",
    sender := { id := "snd", provider_account_id := "acct" },
    campaignId := "camp", campaignCounters := {},
    workflow := { nodes := [c8Node], edges := [] },
    oracle := { visitProfile := .ok { provider := "LINKEDIN", provider_id := "PID" } } }

/-- C8 (counterexample).  On a `send_followup` step with
`configureWithAI = true`, the executor sends the empty string
(`config.customMessage || ''`) through the provider chat call, whereas
the claimed composition (implemented only by the uninvoked
`sendFollowUp` helper) would produce the AI placeholder message; the
two differ, so the claim is false. -/
theorem send_followup_bypasses_composition :
    WorkflowEffect.providerCall (ProviderCall.startNewChat "acct" ["PID"] "") ∈
        executeStepAndAddNextStep c8Env ∧
    sendFollowUpMessage c8Config "PID" none = defaultOutreachMessage ∧
    ("" : String) ≠ defaultOutreachMessage := by
  refine ⟨by decide, rfl, by decide⟩

/-- C8 (amended).  When a `send_followup` step executes (LinkedIn
profile resolved, chat call succeeds), the text passed to the provider
chat call is exactly `config.customMessage`, or the empty string when it
is unset: no AI composition and no template-variable substitution is
applied (the `sendFollowUp` helper implementing the claimed composition
has no caller). -/
theorem send_followup_sends_raw_custom_message (env : ExecEnv) (idf : String)
    (node : WorkflowNode) (p : ProviderProfile)
    (h1 : env.identifier = some idf)
    (h2 : env.workflow.nodes.find? (fun n => n.id = env.step.id_in_workflow) = some node)
    (h3 : env.step.step_type = EStepType.send_followup)
    (h4 : env.oracle.visitProfile = .ok p)
    (h5 : p.provider = "LINKEDIN")
    (h6 : env.oracle.sendMessage = .ok ()) :
    WorkflowEffect.providerCall (ProviderCall.startNewChat env.sender.provider_account_id
        [p.provider_id] (node.data.config.customMessage.getD "")) ∈
      executeStepAndAddNextStep env ∧
    (∀ accountId attendeesIds text,
      WorkflowEffect.providerCall (ProviderCall.startNewChat accountId attendeesIds text) ∈
          executeStepAndAddNextStep env →
        text = node.data.config.customMessage.getD "") := by
  have hrun : executeStepAndAddNextStep env =
      (([WorkflowEffect.providerCall (.getProfile env.sender.provider_account_id idf true),
         WorkflowEffect.leadUpdate env.leadId (leadUpdateOfProfile env.nowMs p)] ++
        [WorkflowEffect.providerCall (.startNewChat env.sender.provider_account_id
          [p.provider_id] (node.data.config.customMessage.getD ""))]) ++
       [WorkflowEffect.stepUpdate env.step.id
         { status := some EWorkflowStepStatus.COMPLETE,
           raw_response := some { providerId := some p.provider_id,
                                  pollingStartedAt := some env.nowMs },
           updated_at := some env.nowMs }]) ++
      (let created := createNextSteps env.nowMs env.step env.leadId env.workflow node
        { providerId := some p.provider_id, pollingStartedAt := some env.nowMs }
        true (some PollType.message_reply)
       if created.isEmpty then [] else [WorkflowEffect.stepsCreated created]) := by
    simp [executeStepAndAddNextStep, h1, h2, executeBranch, h3, h4, h5, h6,
      visitLinkedInProfile, jsOrBool]
  constructor
  · rw [hrun]
    simp
  · intro accountId attendeesIds text hmem
    rw [hrun] at hmem
    simp only [List.mem_append] at hmem
    rcases hmem with ((h | h) | h) | h
    · simp at h
    · simp only [List.mem_singleton, WorkflowEffect.providerCall.injEq,
        ProviderCall.startNewChat.injEq] at h
      exact h.2.2
    · simp at h
    · revert h
      split <;> (intro h; simp at h)

/-! ## Witnesses (concrete instantiations of the claim theorems) -/

theorem checkConnectionRequestLimits_spec_witness :
    connectionRequestLimitsClaim
      { requests_sent_this_day := some 60, requests_sent_this_week := some 0,
        last_daily_requests_reset := some 500, last_weekly_requests_reset := some 500 }
      1000 60 200 :=
  checkConnectionRequestLimits_spec
    { requests_sent_this_day := some 60, requests_sent_this_week := some 0,
      last_daily_requests_reset := some 500, last_weekly_requests_reset := some 500 }
    1000 60 200

def c2Node : WorkflowNode :=
  { id := "A", type := EAction.action, data := { type := EStepType.send_connection_request } }

def c2Env : ExecEnv :=
  { nowMs := 1000,
    step := { id := "s1", organization_id := "org", lead_id := "L", id_in_workflow := "A",
              step_index := 0, workflow_type := EWorkflowType.CAMPAIGN_WORKFLOW,
              step_type := EStepType.send_connection_request,
              status := EWorkflowStepStatus.PENDING, retries := 0, execute_after := 0,
              raw_response := none, created_at := 0, updated_at := 0 },
    leadId := "L", identifier := some "john",
    sender := { id := "snd", provider_account_id := "acct",
                connection_request_blocked_until := some 5000000 },
    campaignId := "camp", campaignCounters := {},
    workflow := { nodes := [c2Node], edges := [] }, oracle := {} }

theorem send_connection_request_cooldown_defers_witness :
    executeStepAndAddNextStep c2Env =
      [.stepUpdate "s1" { execute_after := some 5000, updated_at := some 1000 }] :=
  send_connection_request_cooldown_defers c2Env "john" c2Node 5000000 rfl rfl rfl rfl
    (by decide)

def c4Node : WorkflowNode :=
  { id := "A", type := EAction.action, data := { type := EStepType.send_followup } }

def c4Wf : WorkflowJson := { nodes := [c4Node], edges := [] }

def c4Step : WorkflowStep :=
  { id := "s2", organization_id := "org", lead_id := "L", id_in_workflow := "A",
    step_index := 1, workflow_type := EWorkflowType.CAMPAIGN_WORKFLOW,
    step_type := EStepType.check_message_reply, status := EWorkflowStepStatus.PENDING,
    retries := 0, execute_after := 0,
    raw_response := some { providerId := some "PID", pollingStartedAt := some 0,
                           hasReplied := some true },
    created_at := 0, updated_at := 0 }

def c4Env : ExecEnv :=
  { nowMs := 1000, step := c4Step, leadId := "L", identifier := some "john",
    sender := { id := "snd", provider_account_id := "acct" },
    campaignId := "camp", campaignCounters := {}, workflow := c4Wf, oracle := {} }

theorem reply_terminates_branch_witness :
    (checkMessageReplyResult 1000 c4Step).hasReplied = some true ∧
    createNextSteps 1000 c4Step "L" c4Wf c4Node
      (checkMessageReplyResult 1000 c4Step) false none = [] ∧
    executeStepAndAddNextStep c4Env =
      [.stepUpdate "s2" { status := some EWorkflowStepStatus.COMPLETE,
                          raw_response := some (checkMessageReplyResult 1000 c4Step),
                          updated_at := some 1000 }] :=
  reply_terminates_branch c4Env "john" c4Node rfl rfl rfl rfl

def c5NodeA : WorkflowNode :=
  { id := "A", type := EAction.action, data := { type := EStepType.send_connection_request } }

def c5NodeB : WorkflowNode :=
  { id := "B", type := EAction.action, data := { type := EStepType.withdraw_request } }

def c5Wf : WorkflowJson := { nodes := [c5NodeA, c5NodeB], edges := [] }

def c5Step : WorkflowStep :=
  { id := "s5", organization_id := "org", lead_id := "L", id_in_workflow := "A",
    step_index := 1, workflow_type := EWorkflowType.CAMPAIGN_WORKFLOW,
    step_type := EStepType.check_connection_status, status := EWorkflowStepStatus.PENDING,
    retries := 0, execute_after := 0,
    raw_response := some
      { providerId := some "PID",
        nextSteps := some [{ nodeId := "B", edgeId := "e",
                             conditionalType := some CondType.not_accepted, delayMs := 0 }],
        pollingStartedAt := some 0 },
    created_at := 0, updated_at := 0 }

theorem timeout_takes_not_accepted_witness :
    createNextSteps 2000 c5Step "L" c5Wf c5NodeA
      (checkConnectionStatusResult 2000 c5Step false) false none =
      [{ organization_id := "org", lead_id := "L", id_in_workflow := "B",
         step_index := 2, workflow_type := EWorkflowType.CAMPAIGN_WORKFLOW,
         step_type := EStepType.withdraw_request, status := EWorkflowStepStatus.PENDING,
         retries := 0, execute_after := 2, raw_response := none,
         created_at := 2000, updated_at := 2000 }] :=
  (timeout_takes_not_accepted 2000 c5Step "L" c5Wf c5NodeA rfl (by decide)).2.2.1
    { nodeId := "B", edgeId := "e", conditionalType := some CondType.not_accepted,
      delayMs := 0 } rfl c5NodeB rfl

def c3Profile : ProviderProfile := { provider := "LINKEDIN", provider_id := "PID" }

def c3Err : JsError :=
  { body := some { type? := some "errors/cannot_resend_yet", detail := some "Cannot resend yet" } }

def c3Node : WorkflowNode :=
  { id := "A", type := EAction.action, data := { type := EStepType.send_connection_request } }

def c3Env : ExecEnv :=
  { nowMs := 1000,
    step := { id := "s3", organization_id := "org", lead_id := "L", id_in_workflow := "A",
              step_index := 0, workflow_type := EWorkflowType.CAMPAIGN_WORKFLOW,
              step_type := EStepType.send_connection_request,
              status := EWorkflowStepStatus.PENDING, retries := 0, execute_after := 0,
              raw_response := none, created_at := 0, updated_at := 0 },
    leadId := "L", identifier := some "john",
    sender := { id := "snd", provider_account_id := "acct" },
    campaignId := "camp",
    campaignCounters := { last_daily_requests_reset := some 500,
                          last_weekly_requests_reset := some 500 },
    workflow := { nodes := [c3Node], edges := [] },
    oracle := { visitProfile := .ok c3Profile, sendInvitation := .error c3Err } }

def c3Campaign : CampaignRec := { id := "c1", sender_account := some "snd" }

def c3LeadRow : LeadRec := { id := "L1", campaign_id := "c1" }

def c3DbStep : WorkflowStep :=
  { id := "d1", organization_id := "org", lead_id := "L1", id_in_workflow := "A",
    step_index := 0, workflow_type := EWorkflowType.CAMPAIGN_WORKFLOW,
    step_type := EStepType.send_connection_request, status := EWorkflowStepStatus.PENDING,
    retries := 0, execute_after := 0, raw_response := none,
    created_at := 0, updated_at := 0 }

theorem cannot_resend_yet_cooldown_witness :
    (WorkflowEffect.senderBlockedUntil "snd" (1000 + 24 * 60 * 60 * 1000) ∈
        executeStepAndAddNextStep c3Env ∧
      WorkflowEffect.deferPendingConnectionRequests "snd" ∈
        executeStepAndAddNextStep c3Env ∧
      WorkflowEffect.stepUpdate "s3"
          (markStepFailedUpdate 1000 c3Env.step (normalizeErrorMessage c3Err)) ∈
        executeStepAndAddNextStep c3Env) ∧
    deferConnectionRequestStepsForSender 1000 "snd" [c3Campaign] [c3LeadRow] [c3DbStep] =
      [c3DbStep].map (fun s =>
        if stepUsesSender "snd" [c3Campaign] [c3LeadRow] s ∧
            s.status = EWorkflowStepStatus.PENDING ∧
            s.step_type = EStepType.send_connection_request ∧
            s.workflow_type = EWorkflowType.CAMPAIGN_WORKFLOW then
          { s with execute_after := jsFloorDiv (1000 + 24 * 60 * 60 * 1000) 1000,
                   updated_at := 1000 }
        else s) :=
  ⟨cannot_resend_yet_cooldown.1 c3Env "john" c3Node c3Profile c3Err rfl rfl rfl rfl
      (by decide) rfl rfl rfl rfl,
    cannot_resend_yet_cooldown.2 1000 "snd" [c3Campaign] [c3LeadRow] [c3DbStep] (by decide)⟩

theorem webhook_reply_marks_steps_witness :
    (unipileReplyPOST 99 ["a1", "a2"] [c6Lead1, c6Lead2] [c6Step1, c6Step2]).2 = true ∧
    (unipileReplyPOST 99 ["a1", "a2"] [c6Lead1, c6Lead2] [c6Step1, c6Step2]).1 =
      [c6Step1, c6Step2].map (fun s =>
        if webhookMatches [c6Lead1, c6Lead2] ["a1", "a2"] s then
          { s with
            raw_response := some
              { webhookPayloadRaw [c6Step1, c6Step2] [c6Lead1, c6Lead2] ["a1", "a2"] with
                  hasReplied := some true },
            updated_at := 99 }
        else s) :=
  webhook_reply_marks_steps 99 ["a1", "a2"] [c6Lead1, c6Lead2] [c6Step1, c6Step2] (by decide)

theorem send_followup_sends_raw_custom_message_witness :
    WorkflowEffect.providerCall (ProviderCall.startNewChat "acct" ["PID"] "") ∈
      executeStepAndAddNextStep c8Env ∧
    (∀ accountId attendeesIds text,
      WorkflowEffect.providerCall (ProviderCall.startNewChat accountId attendeesIds text) ∈
          executeStepAndAddNextStep c8Env →
        text = "") :=
  send_followup_sends_raw_custom_message c8Env "john" c8Node
    { provider := "LINKEDIN", provider_id := "PID" } rfl rfl rfl rfl rfl rfl

def c9NodeA : WorkflowNode :=
  { id := "A", type := EAction.action, data := { type := EStepType.profile_visit } }

def c9NodeB : WorkflowNode :=
  { id := "B", type := EAction.action, data := { type := EStepType.send_followup } }

def c9Edge : WorkflowEdge := { id := "e9", source := "A", target := "B" }

def c9Wf : WorkflowJson := { nodes := [c9NodeA, c9NodeB], edges := [c9Edge] }

def c9Prev : WorkflowStep :=
  { id := "s9", organization_id := "org", lead_id := "L", id_in_workflow := "A",
    step_index := 4, workflow_type := EWorkflowType.CAMPAIGN_WORKFLOW,
    step_type := EStepType.profile_visit, status := EWorkflowStepStatus.COMPLETE,
    retries := 0, execute_after := 0, raw_response := none,
    created_at := 0, updated_at := 0 }

def c9Next : CreateWorkflowStep :=
  { organization_id := "org", lead_id := "L", id_in_workflow := "B", step_index := 5,
    workflow_type := EWorkflowType.CAMPAIGN_WORKFLOW, step_type := EStepType.send_followup,
    status := EWorkflowStepStatus.PENDING, retries := 0, execute_after := 1,
    raw_response := none, created_at := 1000, updated_at := 1000 }

def c9Entry : CreateWorkflowStep :=
  { organization_id := "org", lead_id := "L", id_in_workflow := "A", step_index := 0,
    workflow_type := EWorkflowType.CAMPAIGN_WORKFLOW, step_type := EStepType.profile_visit,
    status := EWorkflowStepStatus.PENDING, retries := 0, execute_after := 1,
    raw_response := none, created_at := 1000, updated_at := 1000 }

theorem step_index_monotone_witness :
    (c9Next ∈ createNextSteps 1000 c9Prev "L" c9Wf c9NodeA {} false none ∧
      c9Next.step_index = c9Prev.step_index + 1) ∧
    (c9Entry ∈ entryWorkflowSteps 1000 "org" ["L"] c9NodeA ∧ c9Entry.step_index = 0) :=
  ⟨⟨by decide,
    step_index_monotone.1 1000 c9Prev "L" c9Wf c9NodeA {} false none c9Next (by decide)⟩,
   ⟨by decide, step_index_monotone.2 1000 "org" ["L"] c9NodeA c9Entry (by decide)⟩⟩

/-- A polling step with only an unconditional stored entry (no
conditional branches at all), for the C10 witness. -/
def c10wStep : WorkflowStep :=
  { id := "sw", organization_id := "org", lead_id := "L", id_in_workflow := "A",
    step_index := 1, workflow_type := EWorkflowType.CAMPAIGN_WORKFLOW,
    step_type := EStepType.check_connection_status, status := EWorkflowStepStatus.PENDING,
    retries := 0, execute_after := 0,
    raw_response := some
      { providerId := some "PID",
        nextSteps := some [{ nodeId := "B", edgeId := "e",
                             conditionalType := none, delayMs := 0 }],
        pollingStartedAt := some 0 },
    created_at := 0, updated_at := 0 }

theorem poll_without_accepted_branch_witness :
    (checkConnectionStatusResult 1000 c10wStep false).hasTimedOut = some true ∧
    (checkConnectionStatusResult 1000 c10wStep false).shouldContinuePolling = some false ∧
    createNextSteps 1000 c10wStep "L" c10Wf c10NodeA
      (checkConnectionStatusResult 1000 c10wStep false) false none = [] := by
  have h := poll_without_accepted_branch 1000 c10wStep "L" c10Wf c10NodeA false
    (by decide) (by decide)
  exact ⟨h.1, h.2.1, (h.2.2.2.2 (by decide)).1 rfl⟩
